import Mathlib

/-!
Verification development for the SEO audit engine of `src/app/api/audit/route.ts`.

The route parses a fetched HTML page with cheerio, runs a catalog of analysis
functions, each returning a list of issue strings, concatenates the lists and
derives an overall score.  We embed the route shallowly: the cheerio/DOM layer
(an out-of-scope collaborator per the specification) is represented by a `Page`
structure holding exactly the query results the route reads (heading sequence,
meta attribute values, image/link element attributes, element counts, raw html
string), and network effects (HEAD requests for links, robots.txt/sitemap.xml
fetches, WHATWG URL resolution which can throw) are oracle inputs.  Each
`analyze*` function below mirrors the control flow of the equally named
function of the source; JavaScript string/number idioms (truthiness, `split`,
`includes`, `parseInt`, `Math.round`, `toFixed`) are modelled by the `js*`
helpers in this section.
-/

/-- JavaScript truthiness of an optional string attribute:
`undefined` and `""` are falsy. -/
def jsTruthy (o : Option String) : Bool :=
  match o with
  | none => false
  | some s => s ≠ ""

/-- JavaScript `String.prototype.includes`: substring test. -/
def jsIncludes (s pat : String) : Bool :=
  pat = "" || (s.splitOn pat).length > 1

/-- Number of (non-overlapping, leftmost) occurrences of a pattern, as
counted by `(s.match(/pat/g) || []).length` for a literal pattern. -/
def countSubstr (s pat : String) : Nat :=
  (s.splitOn pat).length - 1

/-- JavaScript `s.split(/\s+/)`: splits on maximal whitespace runs.  A run at
the start or at the end of the string contributes one empty token; the empty
string yields `[""]`. -/
def jsSplitWs (s : String) : List String :=
  if s = "" then [""]
  else
    (if s.startsWith " " || (s.front.isWhitespace) then [""] else [])
      ++ ((s.split Char.isWhitespace).filter (· ≠ ""))
      ++ (if s.back.isWhitespace then [""] else [])

/-- JavaScript `s.split(/\s+/).filter(Boolean).length` word counting. -/
def jsWords (s : String) : List String :=
  (s.split Char.isWhitespace).filter (· ≠ "")

/-- A JavaScript regex word character (`\w`). -/
def isWordChar (c : Char) : Bool :=
  c.isAlphanum || c = '_'

/-- Maximal runs of word characters of a string: a whole-word regex match
`\bw\b` (for `w` consisting of word characters) hits exactly the runs equal
to `w`. -/
def wordRuns (s : String) : List String :=
  (s.split (fun c => !isWordChar c)).filter (· ≠ "")

/-- `Number.parseInt(s, 10)`: skip leading whitespace, optional sign, then a
(decimal) digit prefix; `none` models `NaN`. -/
def jsParseInt (s : String) : Option Int :=
  let t := s.trimLeft
  let (neg, rest) :=
    if t.startsWith "-" then (true, t.drop 1)
    else if t.startsWith "+" then (false, t.drop 1)
    else (false, t)
  let digits := rest.takeWhile Char.isDigit
  if digits = "" then none
  else
    let v : Int := digits.foldl (fun a c => a * 10 + (c.toNat - 48)) 0
    some (if neg then -v else v)

/-- `Math.round`: nearest integer, ties towards positive infinity. -/
def jsRound (q : ℚ) : Int :=
  Rat.floor (q + 1/2)

/-- An apostrophe character, used inside issue strings of the source. -/
def apos : String :=
  String.singleton (Char.ofNat 39)

/-- `q.toFixed(1)` for a rational: one decimal digit, ties away from the
smaller value as in `Math.round` (an adequate model for the non-tie values
the route produces). -/
def qToFixed1 (q : ℚ) : String :=
  let n : Int := jsRound (q * 10)
  let a := n.natAbs
  (if n < 0 then "-" else "") ++ toString (a / 10) ++ "." ++ toString (a % 10)

/-- Auxiliary for `dedupKeepFirst`, carrying the set of already seen
elements. -/
def dedupKeepFirstAux (seen : List String) : List String → List String
  | [] => []
  | x :: xs =>
    if x ∈ seen then dedupKeepFirstAux seen xs
    else x :: dedupKeepFirstAux (x :: seen) xs

/-- Deduplication keeping the first occurrence, as JavaScript `Set`
insertion order does. -/
def dedupKeepFirst (l : List String) : List String :=
  dedupKeepFirstAux [] l

/-- Model of legacy `url.parse(u).hostname` for absolute URLs with an
authority (`scheme://host...`); userinfo is not modelled.  `none` models
`null`. -/
def hostnameOf (u : String) : Option String :=
  if jsIncludes u "://" then
    let rest := ((u.splitOn "://").drop 1).foldl (fun a p => if a = "" then p else a ++ "://" ++ p) ""
    let hostport := rest.takeWhile (fun c => c ≠ '/' && c ≠ '?' && c ≠ '#')
    let host := (hostport.takeWhile (· ≠ ':')).toLower
    if host = "" then none else some host
  else none

/-- Model of legacy `url.parse(u).protocol` (`"https:"`, `"http:"`, ...). -/
def protocolOf (u : String) : Option String :=
  if jsIncludes u "://" then some (((u.splitOn "://").headD "").toLower ++ ":")
  else none

/-- Model of legacy `url.parse(u).pathname`; `null` (here `none`) when the
URL has no path component. -/
def pathnameOf (u : String) : Option String :=
  if jsIncludes u "://" then
    let rest := ((u.splitOn "://").drop 1).foldl (fun a p => if a = "" then p else a ++ "://" ++ p) ""
    let afterHost := rest.dropWhile (fun c => c ≠ '/' && c ≠ '?' && c ≠ '#')
    if afterHost.startsWith "/" then
      some (afterHost.takeWhile (fun c => c ≠ '?' && c ≠ '#'))
    else none
  else none

/-- Model of legacy `url.parse(u).query`: the text after the first `?`,
before any `#`; `none` when there is no `?`. -/
def queryOf (u : String) : Option String :=
  if jsIncludes u "?" then
    some ((((u.splitOn "?").drop 1).foldl (fun a p => if a = "" then p else a ++ "?" ++ p) "").takeWhile (· ≠ '#'))
  else none

/-- Model of WHATWG `new URL(u).pathname` for absolute http(s) URLs: the
empty path normalises to `"/"`; `none` models the constructor throwing. -/
def whatwgPathname (u : String) : Option String :=
  if jsIncludes u "://" then
    match hostnameOf u with
    | none => none
    | some _ =>
      let rest := ((u.splitOn "://").drop 1).foldl (fun a p => if a = "" then p else a ++ "://" ++ p) ""
      let afterHost := rest.dropWhile (fun c => c ≠ '/' && c ≠ '?' && c ≠ '#')
      if afterHost.startsWith "/" then
        some (afterHost.takeWhile (fun c => c ≠ '?' && c ≠ '#'))
      else some "/"
  else none

/-- `URLSearchParams(q).keys()` as an ordered list (duplicates kept);
percent-decoding is not modelled. -/
def searchParamKeys (q : String) : List String :=
  ((q.splitOn "&").filter (· ≠ "")).map (fun seg => seg.takeWhile (· ≠ '='))

/-- Count of maximal runs of characters satisfying `p` (used for vowel
groups in the syllable counter). -/
def countCharRuns (p : Char → Bool) (s : String) : Nat :=
  ((s.split (fun c => !p c)).filter (· ≠ "")).length

/-! ## Heading structure (`analyzeHeadingStructure`, `checkHeadingHierarchy`) -/

/-- The document-order heading sequence `$("h1, h2, h3, h4, h5, h6")`: each
entry is the heading level (1–6) with its trimmed text. -/
abbrev HeadingSeq := List (Nat × String)

/-- Loop of `checkHeadingHierarchy`: `i` is the element index and `last` the
previous heading level; a heading whose level exceeds `last + 1` breaks the
hierarchy, except at index 0. -/
def hierarchyAux : Nat → Nat → List Nat → Bool
  | _, _, [] => true
  | i, last, l :: ls =>
    if l > last + 1 && i > 0 then false
    else hierarchyAux (i + 1) l ls

/-- `checkHeadingHierarchy($)` of the source: whether no heading (after the
first) skips a level relative to its predecessor in document order. -/
def checkHeadingHierarchy (levels : List Nat) : Bool :=
  hierarchyAux 0 0 levels

/-- Result of `analyzeHeadingStructure`. -/
structure HeadingsResult where
  h1 : Nat
  h1Text : List String
  nestedStructure : Bool
  issues : List String
deriving Repr, DecidableEq

/-- `analyzeHeadingStructure(html)` of the source, over the extracted heading
sequence. -/
def analyzeHeadingStructure (seq : HeadingSeq) : HeadingsResult :=
  let h1 := (seq.filter (fun h => h.1 = 1)).length
  let h1Text := (seq.filter (fun h => h.1 = 1)).map (·.2)
  let nested := checkHeadingHierarchy (seq.map (·.1))
  { h1 := h1
    h1Text := h1Text
    nestedStructure := nested
    issues :=
      (if h1 = 0 then ["No H1 heading found"]
       else if h1 > 1 then ["Multiple H1 headings found"]
       else [])
      ++ (if !nested then ["Heading structure is not properly nested"] else []) }

/-! ## HTTPS (`analyzeHttps`) -/

/-- Result of `analyzeHttps`. -/
structure HttpsResult where
  isHttps : Bool
  hasMixedContent : Bool
  issues : List String
deriving Repr, DecidableEq

/-- `analyzeHttps(url)` of the source.  `hasMixedContent` is the source's
hard-coded `false` (a client-side check it does not perform). -/
def analyzeHttps (url : String) : HttpsResult :=
  let isHttps := url.startsWith "https://"
  let hasMixedContent := false
  { isHttps := isHttps
    hasMixedContent := hasMixedContent
    issues :=
      (if !isHttps then ["Website is not using HTTPS"] else [])
      ++ (if hasMixedContent then ["Page has mixed content (HTTP resources on HTTPS page)"] else []) }

/-! ## Canonical (`analyzeCanonical`) -/

/-- Result of `analyzeCanonical` (the fields its issues depend on). -/
structure CanonicalResult where
  hasCanonical : Bool
  canonicalUrl : String
  isCanonicalSelf : Bool
  isRelativeCanonical : Bool
  multipleCanonicals : Bool
  issues : List String
deriving Repr, DecidableEq

/-- `analyzeCanonical(html, url)` of the source.  `canonicalHrefs` holds the
`href` attribute (or `""` when absent) of each `link[rel="canonical"]`
element in document order; `prevCount`/`nextCount` are the numbers of
`link[rel="prev"]` / `link[rel="next"]` elements. -/
def analyzeCanonical (canonicalHrefs : List String) (prevCount nextCount : Nat)
    (url : String) : CanonicalResult :=
  let canonicalUrl := canonicalHrefs.headD ""
  let hasCanonical := canonicalUrl ≠ ""
  let isCanonicalSelf := canonicalUrl = url
  let isRelativeCanonical := canonicalUrl.startsWith "/"
  let multipleCanonicals := canonicalHrefs.length > 1
  let hasPrevLink := prevCount > 0
  let hasNextLink := nextCount > 0
  { hasCanonical := hasCanonical
    canonicalUrl := canonicalUrl
    isCanonicalSelf := isCanonicalSelf
    isRelativeCanonical := isRelativeCanonical
    multipleCanonicals := multipleCanonicals
    issues :=
      (if !hasCanonical then ["No canonical URL specified"]
       else if !isCanonicalSelf then ["Canonical URL points to a different page"]
       else [])
      ++ (if isRelativeCanonical then ["Canonical URL is relative, should be absolute"] else [])
      ++ (if multipleCanonicals then ["Multiple canonical tags found"] else [])
      ++ (if (hasPrevLink || hasNextLink) && !hasCanonical then
            ["Pagination links present but no canonical tag"] else []) }

/-! ## Hreflang (`analyzeHreflang`) and language (`detectLanguage`) -/

/-- A `link[rel="alternate"][hreflang]` element. -/
structure HreflangTag where
  hreflang : String
  href : String
deriving Repr, DecidableEq

/-- Result of `analyzeHreflang`. -/
structure HreflangResult where
  hasHreflang : Bool
  issues : List String
deriving Repr, DecidableEq

/-- `analyzeHreflang(html)` of the source; `htmlLang` is
`$("html").attr("lang") || ""`. -/
def analyzeHreflang (tags : List HreflangTag) (htmlLang : String) : HreflangResult :=
  let hasXDefault := tags.any (fun t => t.hreflang = "x-default")
  let pageLang := htmlLang
  let hasSelfReference := tags.any (fun t => t.hreflang = pageLang)
  let isLanguageConsistent := pageLang ≠ "" && tags.any (fun t => t.hreflang.startsWith pageLang)
  { hasHreflang := tags.length > 0
    issues :=
      if tags.length > 0 then
        (if !hasXDefault then ["Missing x-default hreflang tag"] else [])
        ++ (if !hasSelfReference && pageLang ≠ "" then ["Missing self-referencing hreflang tag"] else [])
        ++ (if !isLanguageConsistent && pageLang ≠ "" then
              ["HTML lang attribute doesn" ++ apos ++ "t match any hreflang tags"] else [])
        ++ (if ((tags.filter (fun t => t.href.startsWith "/")).length > 0) then
              ["Hreflang tags should use absolute URLs"] else [])
      else [] }

/-- Result of `detectLanguage`. -/
structure LanguageResult where
  htmlLang : String
  metaLang : String
  issues : List String
deriving Repr, DecidableEq

/-- `detectLanguage(html)` of the source; `metaLang` is the
`meta[http-equiv="content-language"]` content (or `""`). -/
def detectLanguage (htmlLang metaLang : String) : LanguageResult :=
  { htmlLang := htmlLang
    metaLang := metaLang
    issues :=
      (if htmlLang = "" then ["HTML tag is missing lang attribute"] else [])
      ++ (if htmlLang ≠ "" && metaLang ≠ "" && htmlLang ≠ metaLang then
            ["Inconsistent language declarations: HTML lang and meta content-language differ"]
          else []) }

/-! ## Social tags (`analyzeSocialTags`) -/

/-- The Open Graph / Twitter meta contents `analyzeSocialTags` reads
(each `attr("content") || ""`). -/
structure SocialTags where
  ogTitle : String
  ogDescription : String
  ogImage : String
  twCard : String
  twTitle : String
  twImage : String
deriving Repr, DecidableEq

/-- Result of `analyzeSocialTags`. -/
structure SocialResult where
  hasOpenGraph : Bool
  hasTwitterCard : Bool
  issues : List String
deriving Repr, DecidableEq

/-- `analyzeSocialTags(html)` of the source. -/
def analyzeSocialTags (t : SocialTags) : SocialResult :=
  { hasOpenGraph := t.ogTitle ≠ "" || t.ogDescription ≠ ""
    hasTwitterCard := t.twCard ≠ "" || t.twTitle ≠ ""
    issues :=
      (if t.ogTitle = "" && t.ogDescription = "" then ["Missing Open Graph tags"]
       else
        (if t.ogTitle = "" then ["Missing Open Graph title"] else [])
        ++ (if t.ogDescription = "" then ["Missing Open Graph description"] else [])
        ++ (if t.ogImage = "" then ["Missing Open Graph image"] else []))
      ++ (if t.twCard = "" && t.twTitle = "" then ["Missing Twitter Card tags"]
          else
            (if t.twCard = "" then ["Missing Twitter card type"] else [])
            ++ (if t.twTitle = "" && t.ogTitle = "" then ["Missing Twitter title"] else [])
            ++ (if t.twImage = "" && t.ogImage = "" then ["Missing Twitter image"] else [])) }

/-! ## Schema markup (`analyzeSchemaMarkup`) and structured-data validation -/

/-- A `script[type="application/ld+json"]` element: either its content fails
`JSON.parse` (with the error message), or it parses and optionally carries a
string `@type`. -/
inductive JsonLd where
  | invalid (msg : String)
  | valid (typeName : Option String)
deriving Repr, DecidableEq

/-- Result of `analyzeSchemaMarkup`. -/
structure SchemaResult where
  schemaCount : Nat
  schemaTypes : List String
  hasSchema : Bool
  issues : List String
deriving Repr, DecidableEq

/-- `analyzeSchemaMarkup(html)` of the source.  `microdataItemtypes` holds
the `itemtype` attribute value (`""` when empty) of each `[itemtype]`
element, `rdfaTypeofs` the `typeof` attribute values of `[typeof]`
elements. -/
def analyzeSchemaMarkup (jsonLds : List JsonLd) (microdataItemtypes rdfaTypeofs : List String) :
    SchemaResult :=
  let jsonLdTypes := jsonLds.filterMap (fun j =>
    match j with
    | .invalid _ => none
    | .valid t => some (t.getD "Unknown"))
  let microTypes := microdataItemtypes.filterMap (fun a =>
    let itemType := if a = "" then "Unknown" else a
    let parts := itemType.splitOn "/"
    if parts.length ≥ 2 && parts.getLastD "" ≠ "" then some (parts.getLastD "") else none)
  let rdfaTypes := rdfaTypeofs.map (fun a => if a = "" then "Unknown" else a)
  let schemaTypes := jsonLdTypes ++ microTypes ++ rdfaTypes
  let schemaCount := jsonLdTypes.length + microdataItemtypes.length + rdfaTypeofs.length
  { schemaCount := schemaCount
    schemaTypes := schemaTypes
    hasSchema := schemaCount > 0
    issues :=
      if schemaCount = 0 then ["No schema markup detected"]
      else
        let hasWebpageSchema := schemaTypes.any (fun t =>
          jsIncludes t "WebPage" || jsIncludes t "Article" || jsIncludes t "NewsArticle")
        let hasOrganizationSchema := schemaTypes.any (fun t =>
          jsIncludes t "Organization" || jsIncludes t "LocalBusiness")
        let hasBreadcrumbSchema := schemaTypes.any (fun t => jsIncludes t "BreadcrumbList")
        (if !hasWebpageSchema then ["No WebPage, Article, or NewsArticle schema detected"] else [])
        ++ (if !hasOrganizationSchema then ["No Organization or LocalBusiness schema detected"] else [])
        ++ (if !hasBreadcrumbSchema then ["No BreadcrumbList schema detected"] else []) }

/-- An `[itemscope]` element as read by `validateStructuredData`:
`itemtypeAttr` is its `itemtype` attribute (`none` when absent),
`hasNameOrPriceProp` whether it contains an `[itemprop="name"]` or
`[itemprop="price"]` descendant, `hasHeadlineProp` an
`[itemprop="headline"]` descendant. -/
structure ItemScopeEl where
  itemtypeAttr : Option String
  hasNameOrPriceProp : Bool
  hasHeadlineProp : Bool
deriving Repr, DecidableEq

/-- Result of `validateStructuredData`. -/
structure StructuredDataResult where
  errors : List String
  hasErrors : Bool
deriving Repr, DecidableEq

/-- `validateStructuredData(html)` of the source. -/
def validateStructuredData (jsonLds : List JsonLd) (itemscopes : List ItemScopeEl) :
    StructuredDataResult :=
  let errs :=
    (jsonLds.filterMap (fun j =>
      match j with
      | .invalid msg => some ("Invalid JSON-LD: " ++ msg)
      | .valid _ => none))
    ++ (itemscopes.flatMap (fun el =>
        let itemtype := el.itemtypeAttr.getD ""
        (if el.itemtypeAttr.isNone then ["Element has itemscope but no itemtype"] else [])
        ++ (if jsIncludes itemtype "Product" && !el.hasNameOrPriceProp then
              ["Product schema missing required properties (name, price)"] else [])
        ++ (if jsIncludes itemtype "Article" && !el.hasHeadlineProp then
              ["Article schema missing required headline property"] else [])))
  { errors := errs, hasErrors := errs.length > 0 }

/-! ## Content (`analyzeContent`) -/

/-- Result of `analyzeContent` (the fields its issues depend on). -/
structure ContentResult where
  wordCount : Nat
  paragraphs : Nat
  hasVisualElements : Bool
  issues : List String
deriving Repr, DecidableEq

/-- `analyzeContent(html)` of the source.  `bodyText` is
`$("body").text().trim()`, `pCount`/`imgCount`/`tableCount` the counts of
`p`/`img`/`table` elements and `htmlLen` the raw html string length; the
text-to-html ratio comparison is false when `htmlLen = 0` (`NaN` in
JavaScript). -/
def analyzeContent (bodyText : String) (pCount imgCount tableCount htmlLen : Nat) :
    ContentResult :=
  let wordCount := (jsWords bodyText).length
  let hasVisualElements := imgCount > 0 || tableCount > 0
  let ratioLtTenth := htmlLen ≠ 0 && ((bodyText.length : ℚ) / (htmlLen : ℚ) < 1/10 : Bool)
  { wordCount := wordCount
    paragraphs := pCount
    hasVisualElements := hasVisualElements
    issues :=
      (if wordCount < 300 then ["Content is too short (less than 300 words)"] else [])
      ++ (if pCount < 3 && wordCount > 300 then ["Content has too few paragraphs for its length"] else [])
      ++ (if ratioLtTenth then ["Text to HTML ratio is low (less than 10%)"] else [])
      ++ (if !hasVisualElements && wordCount > 500 then
            ["Long content lacks visual elements (images or tables)"] else []) }

/-! ## URL structure (`analyzeUrl`) -/

/-- Result of `analyzeUrl` (the fields its issues depend on). -/
structure UrlResult where
  pathLength : Nat
  queryParams : List String
  isSecure : Bool
  issues : List String
deriving Repr, DecidableEq

/-- The stop-word alternation of the source's `containsStopWords` regex. -/
def urlStopWords : List String :=
  ["and", "or", "but", "the", "a", "an", "in", "on", "at", "of", "for", "to", "by"]

/-- `analyzeUrl(url)` of the source. -/
def analyzeUrl (url : String) : UrlResult :=
  let pathname := pathnameOf url
  let pathSegments : List String := ((pathname.getD "").splitOn "/").filter (· ≠ "")
  let queryParamNames := searchParamKeys ((queryOf url).getD "")
  let potentialDynamicParams := queryParamNames.filter
    (fun p => (["sort", "view", "display", "layout", "page", "filter"] : List String).contains p)
  let urlWords := ((String.intercalate " " pathSegments).replace "-" " ").toLower
  let containsStopWords := (wordRuns urlWords).any (· ∈ urlStopWords)
  let isCleanFormat :=
    ((pathname.getD "").all (fun c => isWordChar c || c = '-' || c = '/'))
    && !(pathname.any (fun p => jsIncludes p "__"))
  let isSecure := protocolOf url = some "https:"
  let pathLength := (pathname.map String.length).getD 0
  let totalUrlLength := url.length
  { pathLength := pathLength
    queryParams := queryParamNames
    isSecure := isSecure
    issues :=
      (if pathLength > 100 then ["URL path is too long (over 100 characters)"] else [])
      ++ (if totalUrlLength > 150 then ["Total URL length is too long (over 150 characters)"] else [])
      ++ (if queryParamNames.length > 0 then
            ["URL contains query parameters which may affect SEO"] else [])
      ++ (if potentialDynamicParams.length > 0 then
            ["URL contains parameters that might cause duplicate content: "
              ++ String.intercalate ", " potentialDynamicParams] else [])
      ++ (if containsStopWords then ["URL contains stop words which are unnecessary"] else [])
      ++ (if !isCleanFormat then ["URL contains special characters or double underscores"] else [])
      ++ (if !isSecure then ["URL uses HTTP instead of HTTPS"] else []) }

/-! ## Performance (`analyzePerformance`) -/

/-- The resource counts `analyzePerformance` extracts from the document. -/
structure PerfCounts where
  scriptCount : Nat
  scriptSrcCount : Nat
  stylesheetLinkCount : Nat
  styleElCount : Nat
  imgTagCount : Nat
  renderBlockingStyleCount : Nat
  renderBlockingScriptCount : Nat
  preconnectCount : Nat
  dnsPrefetchCount : Nat
  preloadCount : Nat
  lazyImgSelCount : Nat
deriving Repr, DecidableEq

/-- Result of `analyzePerformance`. -/
structure PerfResult where
  issues : List String
deriving Repr, DecidableEq

/-- `analyzePerformance(html)` of the source; `html` is the raw html
string. -/
def analyzePerformance (html : String) (c : PerfCounts) : PerfResult :=
  let scripts := c.scriptCount
  let externalScripts := c.scriptSrcCount
  let styles := c.stylesheetLinkCount
  let inlineStyles := c.styleElCount
  let images := c.imgTagCount
  let hasPreconnect := c.preconnectCount > 0
  let hasDNSPrefetch := c.dnsPrefetchCount > 0
  let lazyLoadingRatioLtHalf :=
    images > 0 && ((c.lazyImgSelCount : ℚ) / (images : ℚ) < 1/2 : Bool)
  let htmlSize := html.length
  let hasJQuery := jsIncludes html "jquery" || jsIncludes html "jQuery"
  let hasGoogleFonts := jsIncludes html "fonts.googleapis.com"
  { issues :=
      (if scripts > 15 then ["High number of script tags (" ++ toString scripts ++ ")"] else [])
      ++ (if styles + inlineStyles > 10 then
            ["High number of stylesheets (" ++ toString (styles + inlineStyles) ++ ")"] else [])
      ++ (if htmlSize > 100000 then
            ["Large HTML size (" ++ toString (jsRound ((htmlSize : ℚ) / 1024)) ++ " KB)"] else [])
      ++ (if c.renderBlockingStyleCount > 2 then
            [toString c.renderBlockingStyleCount ++ " render-blocking stylesheets"] else [])
      ++ (if c.renderBlockingScriptCount > 2 then
            [toString c.renderBlockingScriptCount ++ " render-blocking scripts"] else [])
      ++ (if images > 5 && lazyLoadingRatioLtHalf then
            ["Less than 50% of images use lazy loading"] else [])
      ++ (if !hasPreconnect && !hasDNSPrefetch && externalScripts > 3 then
            ["No preconnect or dns-prefetch resource hints used"] else [])
      ++ (if hasJQuery then ["jQuery detected, which may impact performance"] else [])
      ++ (if hasGoogleFonts && !hasPreconnect then ["Google Fonts used without preconnect"] else []) }

/-! ## Mobile friendliness (`analyzeMobileFriendliness`) -/

/-- An element as read by the mobile check: its `style` attribute text
(`""` when absent) and the inline-css values cheerio's `.css()` returns
(`none` when the property is not set). -/
structure CssEl where
  styleAttr : String
  widthCss : Option String
  heightCss : Option String
  fontSizeCss : Option String
deriving Repr, DecidableEq

/-- The fixed-width filter of `analyzeMobileFriendliness` over one
element. -/
def fixedWidthCond (el : CssEl) : Bool :=
  (jsTruthy el.widthCss && jsIncludes (el.widthCss.getD "") "px"
    && (match jsParseInt (el.widthCss.getD "") with
        | some n => n > 600
        | none => false))
  || (jsIncludes el.styleAttr "width:" && jsIncludes el.styleAttr "px"
      && (match jsParseInt (((el.styleAttr.splitOn "width:").drop 1).headD "") with
          | some n => n > 600
          | none => false))

/-- The small-font filter of `analyzeMobileFriendliness` over one
element. -/
def smallFontCond (el : CssEl) : Bool :=
  (jsTruthy el.fontSizeCss && jsIncludes (el.fontSizeCss.getD "") "px"
    && (match jsParseInt (el.fontSizeCss.getD "") with
        | some n => n < 10
        | none => false))
  || (jsIncludes el.styleAttr "font-size:" && jsIncludes el.styleAttr "px"
      && (match jsParseInt (((el.styleAttr.splitOn "font-size:").drop 1).headD "") with
          | some n => n < 10
          | none => false))

/-- The small-touch-target filter of `analyzeMobileFriendliness` over one
`a`/`button` element. -/
def smallTouchCond (el : CssEl) : Bool :=
  let widthValue := if jsTruthy el.widthCss then jsParseInt (el.widthCss.getD "") else none
  let heightValue := if jsTruthy el.heightCss then jsParseInt (el.heightCss.getD "") else none
  (match widthValue with | some n => n < 44 | none => false)
  || (match heightValue with | some n => n < 44 | none => false)

/-- Result of `analyzeMobileFriendliness`. -/
structure MobileResult where
  hasMobileViewport : Bool
  issues : List String
deriving Repr, DecidableEq

/-- `analyzeMobileFriendliness(html)` of the source: `viewportTag` is the
viewport meta content (`""` when absent), `allEls` the `$("*")` collection,
`abEls` the `$("a, button")` collection, `linkMediaCount` the number of
`link[media]` elements. -/
def analyzeMobileFriendliness (html viewportTag : String) (allEls abEls : List CssEl)
    (linkMediaCount : Nat) : MobileResult :=
  let hasMobileViewport := jsIncludes viewportTag "width=device-width"
  let fixedWidthElements := (allEls.filter fixedWidthCond).length
  let smallFontElements := (allEls.filter smallFontCond).length
  let smallTouchElements := (abEls.filter smallTouchCond).length
  let hasMediaQueries := jsIncludes html "@media" || linkMediaCount > 0
  { hasMobileViewport := hasMobileViewport
    issues :=
      (if !hasMobileViewport then ["No mobile viewport meta tag"] else [])
      ++ (if jsIncludes viewportTag "user-scalable=no" || jsIncludes viewportTag "maximum-scale=1" then
            ["Viewport tag prevents zooming, which hurts accessibility"] else [])
      ++ (if fixedWidthElements > 5 then
            [toString fixedWidthElements ++ " elements have fixed width that may overflow on mobile screens"]
          else [])
      ++ (if smallFontElements > 5 then
            [toString smallFontElements ++ " elements have font sizes that may be too small on mobile devices"]
          else [])
      ++ (if smallTouchElements > 0 then
            [toString smallTouchElements ++ " touch elements may be too small for mobile users"] else [])
      ++ (if !hasMediaQueries then ["No media queries detected for responsive design"] else []) }

/-! ## robots.txt (`analyzeRobotsTxt`) and sitemap.xml (`analyzeSitemap`)

Both fetch an auxiliary URL with axios inside their own `try`/`catch`; the
network is an oracle `Option (Nat × String)`: `some (status, body)` is a
resolved response (axios resolves only 2xx by default), `none` a rejected
request (network error, timeout or non-2xx status), which takes the `catch`
branch. -/

/-- Match of `/^User-agent:\s*(.+)$/i` on an already trimmed line. -/
def uaMatch (l : String) : Option String :=
  if l.toLower.startsWith "user-agent:" then
    let rest := (l.drop 11).trimLeft
    if rest ≠ "" then some rest else none
  else none

/-- Appends a directive line to the section of the given user agent. -/
def uaAppend (secs : List (String × List String)) (ua line : String) :
    List (String × List String) :=
  secs.map (fun s => if s.1 = ua then (s.1, s.2 ++ [line]) else s)

/-- The line-by-line fold building `userAgentSections`; directives seen
before the first `User-agent:` line are dropped because the initial agent
`"*"` has no section yet. -/
def uaFold (secs : List (String × List String)) (cur : String) :
    List String → List (String × List String)
  | [] => secs
  | line :: rest =>
    let l := line.trim
    if l.startsWith "#" || l = "" then uaFold secs cur rest
    else
      match uaMatch l with
      | some ua =>
        uaFold (if secs.any (fun s => s.1 = ua) then secs else secs ++ [(ua, [])]) ua rest
      | none =>
        if secs.any (fun s => s.1 = cur) then uaFold (uaAppend secs cur l) cur rest
        else uaFold secs cur rest

/-- Result of `analyzeRobotsTxt`. -/
structure RobotsResult where
  hasRobotsTxt : Bool
  issues : List String
deriving Repr, DecidableEq

/-- `analyzeRobotsTxt(baseUrl)` of the source, with the robots.txt response
as oracle. -/
def analyzeRobotsTxt (baseUrl : String) (resp : Option (Nat × String)) : RobotsResult :=
  match hostnameOf baseUrl with
  | none => { hasRobotsTxt := false, issues := ["Could not parse hostname from URL"] }
  | some _ =>
    match resp with
    | none => { hasRobotsTxt := false, issues := ["Failed to fetch robots.txt"] }
    | some (status, body) =>
      let hasRobotsTxt := status = 200
      let robotsTxtContent := if hasRobotsTxt then body else ""
      let userAgentSections :=
        if hasRobotsTxt && robotsTxtContent ≠ "" then
          uaFold [] "*" (robotsTxtContent.splitOn "\n")
        else []
      let hasSitemapInRobots := jsIncludes robotsTxtContent.toLower "sitemap:"
      { hasRobotsTxt := hasRobotsTxt
        issues :=
          if !hasRobotsTxt then ["No robots.txt file found"]
          else
            (if jsIncludes robotsTxtContent "Disallow: /" then
              ["robots.txt contains disallow rules"] else [])
            ++ (if !hasSitemapInRobots then ["No sitemap directive in robots.txt"] else [])
            ++ (if userAgentSections.length = 0 then
                  ["robots.txt has no valid user-agent sections"] else []) }

/-- Result of `analyzeSitemap`. -/
structure SitemapResult where
  hasSitemap : Bool
  issues : List String
deriving Repr, DecidableEq

/-- `analyzeSitemap(baseUrl)` of the source, with the sitemap.xml response
as oracle. -/
def analyzeSitemap (baseUrl : String) (resp : Option (Nat × String)) : SitemapResult :=
  match hostnameOf baseUrl with
  | none => { hasSitemap := false, issues := ["Could not parse hostname from URL"] }
  | some _ =>
    match resp with
    | none => { hasSitemap := false, issues := ["Failed to fetch sitemap.xml"] }
    | some (status, body) =>
      let hasSitemap := status = 200
      let sitemapContent := if hasSitemap then body else ""
      let isValidXml := hasSitemap && jsIncludes sitemapContent "<?xml"
      let urlCount := countSubstr sitemapContent "<url>"
      let isSitemapIndex := jsIncludes sitemapContent "<sitemapindex"
      let hasLastmod := jsIncludes sitemapContent "<lastmod>"
      { hasSitemap := hasSitemap
        issues :=
          if !hasSitemap then ["No sitemap.xml file found"]
          else
            (if !isValidXml then ["sitemap.xml does not appear to be valid XML"] else [])
            ++ (if urlCount = 0 && !isSitemapIndex then ["Sitemap contains no URL entries"] else [])
            ++ (if !hasLastmod && !isSitemapIndex then
                  ["Sitemap URLs don" ++ apos ++ "t have lastmod dates"] else []) }

/-! ## Keywords (`analyzeKeywords`) -/

/-- One entry of `keywordAnalysis` (the fields the issues and the sort
depend on). -/
structure KwEntry where
  keyword : String
  inTitle : Bool
  inH1 : Bool
  inUrl : Bool
  inMetaDescription : Bool
  occurrences : Nat
  density : ℚ
deriving Repr, DecidableEq

/-- Number of matches of `new RegExp("\\b" + kw + "\\b", "gi")` in `text`,
for a keyword consisting of word characters: the maximal word-character runs
of the lowercased text equal to the keyword. -/
def countWordMatches (kw text : String) : Nat :=
  (wordRuns text.toLower).count kw

/-- Stable insertion of `x` into a list sorted by descending score: `x` goes
after every element of score ≥ its own, as JavaScript's stable
`sort((a, b) => scoreB - scoreA)` arranges. -/
def insertByScoreDesc {α : Type} (score : α → ℚ) (x : α) : List α → List α
  | [] => [x]
  | y :: ys => if score y < score x then x :: y :: ys else y :: insertByScoreDesc score x ys

/-- Stable sort by descending score. -/
def sortByScoreDesc {α : Type} (score : α → ℚ) : List α → List α
  | [] => []
  | x :: xs => insertByScoreDesc score x (sortByScoreDesc score xs)

/-- The result fields of `analyzeKeywords` the route consumes. -/
structure KeywordsResult where
  keywordAnalysis : List KwEntry
  sortedKeywords : List KwEntry
  issues : List String
deriving Repr, DecidableEq

/-- The quote character, used inside issue strings of the source. -/
def quot : String :=
  String.singleton (Char.ofNat 34)

/-- `analyzeKeywords(html, url)` of the source.  `metaKeywords` and
`metaDescription` are the respective meta contents (`""` when absent),
`title` is `$("title").text()`, `h1Text` is `$("h1").text()` and `bodyText`
is `$("body").text().trim()`. -/
def analyzeKeywords (metaKeywords metaDescription title h1Text bodyText url : String) :
    KeywordsResult :=
  let fromMeta : List String :=
    if metaKeywords ≠ "" then (metaKeywords.splitOn ",").map (fun k => k.trim.toLower)
    else []
  let titleWords := (jsSplitWs title.toLower).filter (fun w => w.length > 3)
  let h1Words := (jsSplitWs h1Text.toLower).filter (fun w => w.length > 3)
  let extractedKeywords := dedupKeepFirst (fromMeta ++ titleWords ++ h1Words)
  let wordCount := (jsSplitWs bodyText).length
  let keywordAnalysis : List KwEntry := extractedKeywords.map (fun kw =>
    let occ := countWordMatches kw bodyText
    { keyword := kw
      inTitle := jsIncludes title.toLower kw
      inH1 := jsIncludes h1Text.toLower kw
      inUrl := jsIncludes url.toLower kw
      inMetaDescription := jsIncludes metaDescription.toLower kw
      occurrences := occ
      density := if bodyText.length > 0 then (occ : ℚ) / (wordCount : ℚ) else 0 })
  let score : KwEntry → ℚ := fun a =>
    (if a.inTitle then 3 else 0) + (if a.inH1 then 2 else 0) + (if a.inUrl then 2 else 0)
      + ((a.occurrences : ℚ) / ((if wordCount = 0 then 1 else wordCount) : ℚ)) * 100
  let sortedKeywords := (sortByScoreDesc score keywordAnalysis).take 10
  let perKeyword := keywordAnalysis.flatMap (fun a =>
    (if a.density > 5/100 then
      ["Keyword " ++ quot ++ a.keyword ++ quot ++ " may be overused ("
        ++ qToFixed1 (a.density * 100) ++ "%)"] else [])
    ++ (if a.occurrences > 0 && !a.inTitle && !a.inH1 then
          ["Keyword " ++ quot ++ a.keyword ++ quot ++ " not found in title or H1"] else [])
    ++ (if a.occurrences > 5 && !a.inMetaDescription then
          ["Keyword " ++ quot ++ a.keyword ++ quot ++ " not found in meta description"] else []))
  let hasConsistentKeywords :=
    sortedKeywords.length > 0
      && sortedKeywords.head?.any (fun h => h.inTitle && h.inH1 && h.inMetaDescription)
  { keywordAnalysis := keywordAnalysis
    sortedKeywords := sortedKeywords
    issues := perKeyword
      ++ (if !hasConsistentKeywords && sortedKeywords.length > 0 then
            ["Primary keyword not consistently used across title, H1, and meta description"]
          else []) }

/-! ## Readability (`calculateReadability`) -/

/-- The characters stripped from a word by the complex-word check
(`/[,.;:?!()[\]{}'"]/g`). -/
def punctChars : List Char :=
  [',', '.', ';', ':', '?', '!', '(', ')', '[', ']',
   Char.ofNat 123, Char.ofNat 125, Char.ofNat 39, Char.ofNat 34]

/-- `word.replace(/[,.;:?!()[\]{}'"]/g, "")`. -/
def stripPunct (w : String) : String :=
  String.mk (w.toList.filter (fun c => !punctChars.contains c))

/-- The syllable approximation `countSyllables` of the source. -/
def countSyllables (word : String) : Nat :=
  let w := word.toLower
  if w.length ≤ 3 then 1
  else
    let w2 := if w.endsWith "e" then w.dropRight 1 else w
    let vowelGroups := countCharRuns (fun c => "aeiouy".contains c) w2
    if vowelGroups = 0 then 1 else vowelGroups

/-- The verb alternation of the passive-voice regex. -/
def passiveVerbs : List String :=
  ["is", "are", "was", "were", "be", "been", "being"]

/-- Whether a whitespace token ends in one of the passive verbs at a word
boundary (so the regex's `\b(v)` matches at the token's end). -/
def endsWithVerbAtBoundary (t : String) : Bool :=
  passiveVerbs.any (fun v =>
    let l := t.toLower
    l = v || (l.endsWith v && !isWordChar (l.dropRight v.length).back))

/-- Whether a whitespace token starts with a `\w+ed\b` participle. -/
def startsPassiveParticiple (t : String) : Bool :=
  let run := t.toLower.takeWhile isWordChar
  run.length ≥ 3 && run.endsWith "ed"

/-- Number of matches of `/\b(is|are|was|were|be|been|being)\s+\w+ed\b/gi`:
adjacent whitespace-token pairs where the first ends in a passive verb and
the second starts with a participle (the verbs do not end in `ed`, so
consecutive matches cannot overlap). -/
def countPassive (text : String) : Nat :=
  let toks := jsWords text
  ((toks.zip (toks.drop 1)).filter
    (fun p => endsWithVerbAtBoundary p.1 && startsPassiveParticiple p.2)).length

/-- Result of `calculateReadability` (the fields the route consumes). -/
structure ReadabilityResult where
  readabilityScore : ℚ
  issues : List String
deriving Repr, DecidableEq

/-- `calculateReadability(html)` of the source; `pTexts` are the trimmed
texts of the `p` elements in document order. -/
def calculateReadability (pTexts : List String) : ReadabilityResult :=
  let text := String.intercalate " " pTexts
  let sentences := ((text.split (fun c => c = '.' || c = '!' || c = '?')).filter (· ≠ "")).length
  let words := (jsWords text).length
  let syllables := (jsWords text).foldl (fun total w => total + countSyllables w) 0
  let readabilityScore : ℚ :=
    if sentences > 0 && words > 0 then
      206835/1000 - 1015/1000 * ((words : ℚ) / (sentences : ℚ))
        - 846/10 * ((syllables : ℚ) / (words : ℚ))
    else 0
  let complexWordCount := ((jsSplitWs text).filter (fun word =>
    let wc := (stripPunct word).toLower
    wc.length > 3 && countSyllables wc ≥ 3)).length
  let complexWordPercentage : ℚ :=
    if words > 0 then (complexWordCount : ℚ) / (words : ℚ) * 100 else 0
  let averageSentenceLength : ℚ :=
    if sentences > 0 then (words : ℚ) / (sentences : ℚ) else 0
  let passiveVoiceCount := countPassive text
  { readabilityScore := max 0 (min 100 readabilityScore)
    issues :=
      (if readabilityScore < 60 then
        ["Content may be difficult to read (score: " ++ qToFixed1 readabilityScore ++ ")"] else [])
      ++ (if averageSentenceLength > 25 then
            ["Average sentence length is too long (" ++ qToFixed1 averageSentenceLength ++ " words)"]
          else [])
      ++ (if complexWordPercentage > 15 then
            ["Too many complex words (" ++ qToFixed1 complexWordPercentage ++ "% of content)"]
          else [])
      ++ (if passiveVoiceCount > 5 && sentences > 0
            && ((passiveVoiceCount : ℚ) / (sentences : ℚ) > 1/5 : Bool) then
            ["High usage of passive voice detected (" ++ toString passiveVoiceCount ++ " instances)"]
          else []) }

/-! ## Images (`analyzeImages`)

`new URL(href, base)` (WHATWG resolution of a relative reference) is a
collaborator that can throw; it is passed as an oracle
`resolve : href → base → Except String String`, an `error` being a thrown
`TypeError` message. -/

/-- `new URL(href, base).href` as an oracle. -/
abbrev Resolver := String → String → Except String String

/-- An `img` element's attributes as read by `analyzeImages` (`none` when
the attribute is absent). -/
structure ImgEl where
  src : Option String
  alt : Option String
  width : Option String
  height : Option String
  loading : Option String
  dataSrc : Option String
  dataLazySrc : Option String
  sizes : Option String
  srcset : Option String
  classLazy : Bool
  classLazyload : Bool
deriving Repr, DecidableEq

/-- The per-image record `analyzeImages` builds (the fields its issues
depend on). -/
structure ImgInfo where
  src : String
  hasAlt : Bool
  hasWidthHeight : Bool
  isLazyLoaded : Bool
  hasResponsiveConfig : Bool
  isInlineBase64 : Bool
  fileExtension : String
deriving Repr, DecidableEq

/-- The `src` resolution of `analyzeImages` for one image. -/
def resolveImgSrc (baseUrl : String) (resolve : Resolver) (src0 : String) :
    Except String String :=
  if src0.startsWith "/" then
    pure (((protocolOf baseUrl).getD "https:") ++ "//" ++ ((hostnameOf baseUrl).getD "") ++ src0)
  else if src0 ≠ "" && !src0.startsWith "http" && !src0.startsWith "data:" then
    resolve src0 baseUrl
  else pure src0

/-- Result of `analyzeImages` (the fields the route consumes). -/
structure ImagesResult where
  imageCount : Nat
  issues : List String
deriving Repr, DecidableEq

/-- `analyzeImages(html, baseUrl)` of the source. -/
def analyzeImages (imgEls : List ImgEl) (baseUrl : String) (resolve : Resolver) :
    Except String ImagesResult := do
  let images ← imgEls.mapM (fun el => do
    let src ← resolveImgSrc baseUrl resolve (el.src.getD "")
    pure
      { src := src
        hasAlt := jsTruthy el.alt
        hasWidthHeight := jsTruthy el.width && jsTruthy el.height
        isLazyLoaded := el.loading = some "lazy" || jsTruthy el.dataSrc
          || jsTruthy el.dataLazySrc || el.classLazy || el.classLazyload
        hasResponsiveConfig := el.sizes.getD "" ≠ "" || el.srcset.getD "" ≠ ""
        isInlineBase64 := src.startsWith "data:"
        fileExtension := if src ≠ "" then ((src.splitOn ".").getLastD "").toLower else ""
        : ImgInfo })
  let imagesWithoutAlt := images.filter (fun img => !img.hasAlt)
  let imagesWithoutDimensions := images.filter (fun img => !img.hasWidthHeight)
  let nonWebpImages := images.filter (fun img =>
    !img.isInlineBase64 && img.fileExtension ≠ ""
      && (["jpg", "jpeg", "png", "gif"] : List String).contains img.fileExtension)
  let nonLazyLoadedImages := images.filter (fun img => !img.isLazyLoaded && !img.isInlineBase64)
  let nonResponsiveImages := images.filter (fun img => !img.hasResponsiveConfig && !img.isInlineBase64)
  pure
    { imageCount := images.length
      issues :=
        (if imagesWithoutAlt.length > 0 then
          [toString imagesWithoutAlt.length ++ " images missing alt text"] else [])
        ++ (if imagesWithoutDimensions.length > 0 then
              [toString imagesWithoutDimensions.length ++ " images missing width/height attributes"]
            else [])
        ++ (if nonWebpImages.length > 3 then
              [toString nonWebpImages.length ++ " images are not using WebP format"] else [])
        ++ (if nonLazyLoadedImages.length > 3 then
              [toString nonLazyLoadedImages.length ++ " images are not lazy loaded"] else [])
        ++ (if nonResponsiveImages.length > 3 then
              [toString nonResponsiveImages.length
                ++ " images don" ++ apos ++ "t have responsive image configuration (srcset/sizes)"]
            else []) }

/-! ## Internal and external links -/

/-- An `a[href]` element as read by the link checks. -/
structure AEl where
  href : String
  text : String
  rel : Option String
  title : Option String
  target : Option String
  inNavigation : Bool
  inFooter : Bool
  inMainContent : Bool
deriving Repr, DecidableEq

/-- The per-link record of `analyzeInternalLinks` (the fields its issues
depend on). -/
structure ILink where
  text : String
  url : String
  path : String
  isNofollow : Bool
  hasText : Bool
  isGeneric : Bool
  inMainContent : Bool
deriving Repr, DecidableEq

/-- The generic anchor-text alternation of `analyzeInternalLinks`
(`/click here|read more|learn more|get started|find out/i`). -/
def genericPhrases : List String :=
  ["click here", "read more", "learn more", "get started", "find out"]

/-- The link resolution shared by `analyzeInternalLinks` and
`checkBrokenLinks`: root-relative hrefs are prefixed with the base
protocol/host, other non-http hrefs go through WHATWG resolution (which can
throw). -/
def resolveLinkHref (baseUrl : String) (resolve : Resolver) (href : String) :
    Except String String :=
  if href.startsWith "/" then
    pure (((protocolOf baseUrl).getD "https:") ++ "//" ++ ((hostnameOf baseUrl).getD "") ++ href)
  else if !href.startsWith "http" then resolve href baseUrl
  else pure href

/-- Result of `analyzeInternalLinks` (the fields the route consumes). -/
structure InternalLinksResult where
  internalLinks : List ILink
  duplicateLinks : List String
  issues : List String
deriving Repr, DecidableEq

/-- `analyzeInternalLinks(html, baseUrl)` of the source. -/
def analyzeInternalLinks (anchors : List AEl) (baseUrl : String) (resolve : Resolver) :
    Except String InternalLinksResult := do
  let hostname := (hostnameOf baseUrl).getD ""
  let currentPath := (pathnameOf baseUrl).getD "/"
  let entries ← anchors.mapM (fun el => do
    let fullUrl ← resolveLinkHref baseUrl resolve el.href
    let isInternal := if hostname ≠ "" then jsIncludes fullUrl hostname else false
    if !isInternal then pure (none : Option ILink)
    else
      let path := (whatwgPathname fullUrl).getD el.href
      let linkText := el.text.trim
      pure (some
        { text := if linkText ≠ "" then linkText else "[No Text]"
          url := fullUrl
          path := path
          isNofollow := el.rel.any (fun r => jsIncludes r "nofollow")
          hasText := el.text.trim ≠ ""
          isGeneric := genericPhrases.any (fun p => jsIncludes linkText.toLower p)
          inMainContent := el.inMainContent }))
  let internalLinks := entries.filterMap id
  let paths := internalLinks.map (·.path)
  let duplicateLinks := (dedupKeepFirst paths).filter (fun p => paths.count p > 1)
  let contentCount := (internalLinks.filter (·.inMainContent)).length
  let genericTextLinks := internalLinks.filter (·.isGeneric)
  let noTextLinks := internalLinks.filter (fun l => !l.hasText)
  let nofollowInternalLinks := internalLinks.filter (·.isNofollow)
  let _ := currentPath
  pure
    { internalLinks := internalLinks
      duplicateLinks := duplicateLinks
      issues :=
        (if internalLinks.length = 0 then ["No internal links found"] else [])
        ++ (if genericTextLinks.length > 0 then
              [toString genericTextLinks.length ++ " internal links use generic anchor text"] else [])
        ++ (if noTextLinks.length > 0 then
              [toString noTextLinks.length ++ " internal links have no anchor text"] else [])
        ++ (if nofollowInternalLinks.length > 3 then
              [toString nofollowInternalLinks.length ++ " internal links have nofollow attribute"]
            else [])
        ++ (if duplicateLinks.length > 3 then
              [toString duplicateLinks.length ++ " duplicate internal links to the same URL"] else [])
        ++ (if internalLinks.length > 0
              && ((contentCount : ℚ) < (internalLinks.length : ℚ) * (3/10) : Bool) then
              ["Low percentage of internal links in main content area"] else []) }

/-- The per-link record of `analyzeExternalLinks` (the fields its issues
depend on). -/
structure ELink where
  hostname : String
  isNofollow : Bool
  hasSafeRel : Bool
  hasExternalIndicator : Bool
deriving Repr, DecidableEq

/-- Result of `analyzeExternalLinks` (the fields the route consumes). -/
structure ExternalLinksResult where
  externalCount : Nat
  issues : List String
deriving Repr, DecidableEq

/-- `analyzeExternalLinks(html, baseUrl)` of the source. -/
def analyzeExternalLinks (anchors : List AEl) (baseUrl : String) : ExternalLinksResult :=
  let hostname := (hostnameOf baseUrl).getD ""
  let externalLinks := anchors.filterMap (fun el =>
    if !el.href.startsWith "http" then none
    else
      let linkHostname := (hostnameOf el.href).getD ""
      if linkHostname = "" || (hostname ≠ "" && linkHostname = hostname) then none
      else
        let relStr := el.rel.getD ""
        some
          { hostname := linkHostname
            isNofollow := jsIncludes relStr "nofollow"
            hasSafeRel := jsIncludes relStr "noopener" && jsIncludes relStr "noreferrer"
            hasExternalIndicator := el.target = some "_blank"
            : ELink })
  let externalLinksWithoutNofollow := externalLinks.filter (fun l => !l.isNofollow)
  let externalLinksWithoutSafeRel :=
    externalLinks.filter (fun l => l.hasExternalIndicator && !l.hasSafeRel)
  let potentiallyToxicDomains := externalLinks.filter (fun l =>
    !l.isNofollow
      && (jsIncludes l.hostname "adult" || jsIncludes l.hostname "casino"
          || jsIncludes l.hostname "poker" || jsIncludes l.hostname "bet"
          || jsIncludes l.hostname "loan" || jsIncludes l.hostname "pills"))
  { externalCount := externalLinks.length
    issues :=
      (if externalLinksWithoutNofollow.length > 0 then
        [toString externalLinksWithoutNofollow.length ++ " external links without nofollow"] else [])
      ++ (if externalLinksWithoutSafeRel.length > 0 then
            [toString externalLinksWithoutSafeRel.length
              ++ " external links missing noopener/noreferrer with target=" ++ quot ++ "_blank" ++ quot]
          else [])
      ++ (if potentiallyToxicDomains.length > 0 then
            [toString potentiallyToxicDomains.length
              ++ " links to potentially toxic domains without nofollow"] else []) }

/-! ## Broken links (`checkBrokenLinks`)

The `axios.head` status check is an oracle
`linkStatus : url → Option Nat`: `some s` is a response with status `s`
(any status is accepted by `validateStatus: () => true`), `none` a request
error (the `catch` branch, which records the link with status `"Error"`). -/

/-- A link collected for checking: its anchor text and resolved URL. -/
structure BLink where
  text : String
  url : String
deriving Repr, DecidableEq

/-- A broken link: `status = none` models the `"Error"` entry of the
`catch` branch. -/
structure BrokenLink where
  text : String
  url : String
  status : Option Nat
deriving Repr, DecidableEq

/-- The skip filter of `checkBrokenLinks`: anchors, `javascript:`,
`mailto:` and `tel:` hrefs are not checked. -/
def skipHref (href : String) : Bool :=
  href.startsWith "#" || href.startsWith "javascript:"
    || href.startsWith "mailto:" || href.startsWith "tel:"

/-- Result of `checkBrokenLinks`. -/
structure BrokenLinksResult where
  checkedLinks : Nat
  brokenLinks : List BrokenLink
  issues : List String
deriving Repr, DecidableEq

/-- The classification of one checked link: broken when the status is at
least 400 or the request errored. -/
def classifyLink (linkStatus : String → Option Nat) (l : BLink) : Option BrokenLink :=
  match linkStatus l.url with
  | none => some { text := l.text, url := l.url, status := none }
  | some s => if s ≥ 400 then some { text := l.text, url := l.url, status := some s } else none

/-- The link-collection map of `checkBrokenLinks`: skipped hrefs become
`null`, the rest are resolved (which can throw) and paired with their anchor
text. -/
def collectCheckableLinks (anchors : List AEl) (baseUrl : String) (resolve : Resolver) :
    Except String (List BLink) := do
  let linkOpts ← anchors.mapM (fun el => do
    if skipHref el.href then pure (none : Option BLink)
    else
      let fullUrl ← resolveLinkHref baseUrl resolve el.href
      pure (some
        { text := if el.text.trim ≠ "" then el.text.trim else "[No Text]"
          url := fullUrl }))
  pure (linkOpts.filterMap id)

/-- `checkBrokenLinks(html, baseUrl)` of the source. -/
def checkBrokenLinks (anchors : List AEl) (baseUrl : String) (resolve : Resolver)
    (linkStatus : String → Option Nat) : Except String BrokenLinksResult := do
  match hostnameOf baseUrl with
  | none =>
    pure { checkedLinks := 0, brokenLinks := [],
           issues := ["Could not parse hostname from URL"] }
  | some _ =>
    let links ← collectCheckableLinks anchors baseUrl resolve
    let linksToCheck := links.take 10
    let brokenLinks := linksToCheck.filterMap (classifyLink linkStatus)
    pure
      { checkedLinks := linksToCheck.length
        brokenLinks := brokenLinks
        issues :=
          if brokenLinks.length > 0 then
            [toString brokenLinks.length ++ " broken links found"]
          else [] }

/-! ## The POST handler (`POST`)

`Page` bundles the cheerio query results the route's checks read from one
fetched document (the fetch + parse layer is the out-of-scope collaborator);
the network-dependent parts (WHATWG URL resolution, HEAD status checks,
robots.txt/sitemap.xml responses) are oracle arguments. -/

/-- One parsed page, as consumed by the check catalog. -/
structure Page where
  html : String
  title : String
  metaDescription : String
  metaKeywords : String
  viewportAttr : String
  htmlLang : String
  metaContentLanguage : String
  headingSeq : HeadingSeq
  h1AllText : String
  bodyText : String
  pTexts : List String
  tableCount : Nat
  imgEls : List ImgEl
  socialTags : SocialTags
  jsonLds : List JsonLd
  microdataItemtypes : List String
  rdfaTypeofs : List String
  itemscopes : List ItemScopeEl
  anchors : List AEl
  allEls : List CssEl
  abEls : List CssEl
  linkMediaCount : Nat
  perfCounts : PerfCounts
  canonicalHrefs : List String
  prevLinkCount : Nat
  nextLinkCount : Nat
  hreflangTags : List HreflangTag

/-- The overall score of the route (lines 1831–1834):
`Math.max(0, 100 - Math.min(allIssues.length * 2.5, 70))`. -/
def overallScoreQ (n : Nat) : ℚ :=
  max 0 (100 - min ((n : ℚ) * (5/2)) 70)

/-- The critical-issue filter of the route (substring tests on the issue
text). -/
def isCriticalIssue (issue : String) : Bool :=
  jsIncludes issue "No H1" || jsIncludes issue "broken links"
    || jsIncludes issue "not using HTTPS" || jsIncludes issue "Invalid JSON-LD"
    || jsIncludes issue "missing lang attribute"

/-- The major-issue substring patterns of the route. -/
def isMajorPattern (issue : String) : Bool :=
  jsIncludes issue "missing" || jsIncludes issue "too short" || jsIncludes issue "too long"
    || jsIncludes issue "High number" || jsIncludes issue "No schema markup"
    || jsIncludes issue "No canonical" || jsIncludes issue "No mobile viewport"

/-- The pieces of the route's response the claims are about: the combined
issue list, the overall score and the severity triage. -/
structure AuditOutput where
  issues : List String
  overallScore : ℚ
  critical : List String
  major : List String
  minor : List String
deriving Repr, DecidableEq

/-- The analysis/aggregation phase of the `POST` handler (lines 1767–1858):
runs every check that contributes to `allIssues`, concatenates the issue
lists in the source's combination order, computes the overall score and the
severity triage.  A thrown exception in any check (`Except.error`)
propagates, as the handler's single `try`/`catch` does. -/
def auditCompute (url : String) (page : Page) (resolve : Resolver)
    (linkStatus : String → Option Nat) (robotsResp sitemapResp : Option (Nat × String)) :
    Except String AuditOutput := do
  let headingRes := analyzeHeadingStructure page.headingSeq
  let contentRes := analyzeContent page.bodyText page.pTexts.length
    page.perfCounts.imgTagCount page.tableCount page.html.length
  let urlRes := analyzeUrl url
  let imagesRes ← analyzeImages page.imgEls url resolve
  let socialRes := analyzeSocialTags page.socialTags
  let schemaRes := analyzeSchemaMarkup page.jsonLds page.microdataItemtypes page.rdfaTypeofs
  let internalRes ← analyzeInternalLinks page.anchors url resolve
  let externalRes := analyzeExternalLinks page.anchors url
  let mobileRes := analyzeMobileFriendliness page.html page.viewportAttr
    page.allEls page.abEls page.linkMediaCount
  let httpsRes := analyzeHttps url
  let perfRes := analyzePerformance page.html page.perfCounts
  let kwRes := analyzeKeywords page.metaKeywords page.metaDescription page.title
    page.h1AllText page.bodyText url
  let canonicalRes := analyzeCanonical page.canonicalHrefs page.prevLinkCount
    page.nextLinkCount url
  let hreflangRes := analyzeHreflang page.hreflangTags page.htmlLang
  let readabilityRes := calculateReadability page.pTexts
  let languageRes := detectLanguage page.htmlLang page.metaContentLanguage
  let sdRes := validateStructuredData page.jsonLds page.itemscopes
  let robotsRes := analyzeRobotsTxt url robotsResp
  let sitemapRes := analyzeSitemap url sitemapResp
  let brokenRes ← checkBrokenLinks page.anchors url resolve linkStatus
  let allIssues :=
    headingRes.issues ++ contentRes.issues ++ urlRes.issues ++ imagesRes.issues
    ++ socialRes.issues ++ schemaRes.issues ++ internalRes.issues ++ externalRes.issues
    ++ mobileRes.issues ++ httpsRes.issues ++ perfRes.issues ++ kwRes.issues
    ++ canonicalRes.issues ++ hreflangRes.issues ++ robotsRes.issues ++ sitemapRes.issues
    ++ readabilityRes.issues ++ brokenRes.issues ++ languageRes.issues ++ sdRes.errors
  let criticalIssues := allIssues.filter isCriticalIssue
  let majorIssues := allIssues.filter (fun i =>
    !criticalIssues.contains i && isMajorPattern i)
  let minorIssues := allIssues.filter (fun i =>
    !criticalIssues.contains i && !majorIssues.contains i)
  pure
    { issues := allIssues
      overallScore := overallScoreQ allIssues.length
      critical := criticalIssues
      major := majorIssues
      minor := minorIssues }

/-- The three response shapes of the `POST` handler the claims are about:
200 with the audit result, 400 with an error object, 500 with
`error`/`details`. -/
inductive PostResponse where
  | ok (result : AuditOutput)
  | badRequest (error : String)
  | serverError (error details : String)
deriving Repr, DecidableEq

/-- The HTTP status the handler attaches to each response shape. -/
def statusOfResponse : PostResponse → Nat
  | .ok _ => 200
  | .badRequest _ => 400
  | .serverError _ _ => 500

/-- The `POST` handler:  `body` is the `url` field of the parsed request
body (`none` when absent), `urlValid` models `new URL(url)` succeeding, and
`fetched` the axios page fetch (`error` = fetch failure, which the outer
`catch` turns into a 500).  Validation happens before the fetch and the
analysis, so the 400 branches consume none of the oracles. -/
def postModel (body : Option String) (urlValid : String → Bool)
    (fetched : Except String Page) (resolve : Resolver)
    (linkStatus : String → Option Nat) (robotsResp sitemapResp : Option (Nat × String)) :
    PostResponse :=
  match body with
  | none => .badRequest "URL is required"
  | some url =>
    if url = "" then .badRequest "URL is required"
    else if !urlValid url then .badRequest "Invalid URL format"
    else
      match fetched with
      | .error e => .serverError "Failed to perform SEO audit" e
      | .ok page =>
        match auditCompute url page resolve linkStatus robotsResp sitemapResp with
        | .error e => .serverError "Failed to perform SEO audit" e
        | .ok out => .ok out

deriving instance DecidableEq for Except

/-! ## Spec-side definitions (for refinement comparison)

These two definitions follow the specification's words, not the source; they
are compared against the source-derived definitions above. -/

/-- The specification's severity-weighted score:
`round((passedChecks*100 + warningChecks*50) / totalChecks)` with
`totalChecks = passed + warning + error` (JavaScript `Math.round`). -/
def specScore (p w e : ℕ) : ℚ :=
  ((jsRound (((p : ℚ) * 100 + (w : ℚ) * 50) / ((p : ℚ) + (w : ℚ) + (e : ℚ))) : ℤ) : ℚ)

/-- Whether a rational is attainable as a spec-formula score for some
severity counts with a positive total. -/
def isSpecScore (q : ℚ) : Prop :=
  ∃ p w e : ℕ, 0 < p + w + e ∧ specScore p w e = q

/-- Modelled from the spec: the "fixed stop-word set" of §4.3, which the
source does not contain (the source's `analyzeKeywords` has no stop-word
filtering); a typical English list is used — its exact contents are
irrelevant to the comparison below, which avoids these words. -/
def specStopWords : List String :=
  ["the", "and", "for", "are", "but", "not", "you", "all", "can", "was",
   "this", "that", "with", "from", "they", "will", "have", "there", "their"]

/-- Modelled from the spec (§4.3): lowercase, strip punctuation, tokenize on
whitespace, discard tokens of length at most 3 and stop words, count each
remaining token's frequency, density = count/totalTokens*100, return the
top 20 by descending count. -/
def extractKeywords_spec (bodyText : String) : List (String × Nat × ℚ) :=
  let cleaned := String.mk (bodyText.toLower.toList.filter
    (fun c => c.isAlphanum || c.isWhitespace))
  let toks := jsWords cleaned
  let kept := toks.filter (fun t => t.length > 3 && !specStopWords.contains t)
  let totalTokens := toks.length
  let entries := (dedupKeepFirst kept).map (fun w =>
    (w, kept.count w, ((kept.count w : ℚ) / (totalTokens : ℚ)) * 100))
  (sortByScoreDesc (fun e => (e.2.1 : ℚ)) entries).take 20

/-! ## Concrete inputs -/

/-- Zero resource counts (a page with no scripts, styles or images). -/
def cPerf : PerfCounts :=
  { scriptCount := 0, scriptSrcCount := 0, stylesheetLinkCount := 0, styleElCount := 0,
    imgTagCount := 0, renderBlockingStyleCount := 0, renderBlockingScriptCount := 0,
    preconnectCount := 0, dnsPrefetchCount := 0, preloadCount := 0, lazyImgSelCount := 0 }

/-- No social meta tags. -/
def cSocial : SocialTags :=
  { ogTitle := "", ogDescription := "", ogImage := "", twCard := "", twTitle := "", twImage := "" }

/-- A minimal page: `<html lang="en"></html>` with an empty body — no
headings, no links, no images, no meta tags. -/
def cPage : Page :=
  { html := "<html></html>", title := "", metaDescription := "", metaKeywords := "",
    viewportAttr := "", htmlLang := "en", metaContentLanguage := "",
    headingSeq := [], h1AllText := "", bodyText := "", pTexts := [],
    tableCount := 0, imgEls := [], socialTags := cSocial, jsonLds := [],
    microdataItemtypes := [], rdfaTypeofs := [], itemscopes := [],
    anchors := [], allEls := [], abEls := [], linkMediaCount := 0,
    perfCounts := cPerf, canonicalHrefs := [], prevLinkCount := 0, nextLinkCount := 0,
    hreflangTags := [] }

/-- A resolver for runs where every href is already absolute (WHATWG
resolution is never reached or trivially succeeds). -/
def okResolver : Resolver := fun href _ => Except.ok href

/-- A HEAD oracle for runs that check no links. -/
def noHead : String → Option Nat := fun _ => none

/-- An image whose src carries a scheme but a malformed host:
`new URL("foo://[", base)` throws a `TypeError` in Node (and the src starts
with neither `/` nor `http` nor `data:`, so the resolution branch is
reached). -/
def cBadImg : ImgEl :=
  { src := some "foo://[", alt := some "logo", width := none, height := none,
    loading := none, dataSrc := none, dataLazySrc := none, sizes := none,
    srcset := none, classLazy := false, classLazyload := false }

/-- `cPage` with the one unresolvable image. -/
def cPageThrow : Page := { cPage with imgEls := [cBadImg] }

/-- A resolver behaving like WHATWG `new URL` on the malformed href
`"foo://["`: it throws. -/
def throwingResolver : Resolver := fun href _ =>
  if href = "foo://[" then Except.error "Invalid URL: foo://[" else Except.ok href

/-- An anchor to an absolute URL that will answer 404. -/
def cBrokenAnchor : AEl :=
  { href := "http://example.com/x", text := "a", rel := none, title := none,
    target := none, inNavigation := false, inFooter := false, inMainContent := false }

/-- Eleven distinct title words, each longer than three characters and none
a stop word. -/
def cKwTitle : String :=
  "alpha bravo charlie delta echoes foxtrot golfs hotel india juliet kilos"

/-- A body consisting of exactly those eleven words. -/
def cKwBody : String :=
  "alpha bravo charlie delta echoes foxtrot golfs hotel india juliet kilos"

/-- The audit output on `cPage`: thirteen issues, score 67.5. -/
def cOut : AuditOutput :=
  { issues :=
      ["No H1 heading found", "Content is too short (less than 300 words)",
       "Text to HTML ratio is low (less than 10%)", "Missing Open Graph tags",
       "Missing Twitter Card tags", "No schema markup detected", "No internal links found",
       "No mobile viewport meta tag", "No media queries detected for responsive design",
       "No canonical URL specified", "Failed to fetch robots.txt", "Failed to fetch sitemap.xml",
       "Content may be difficult to read (score: 0.0)"]
    overallScore := 135/2
    critical := ["No H1 heading found"]
    major := ["Content is too short (less than 300 words)", "No schema markup detected",
              "No mobile viewport meta tag", "No canonical URL specified"]
    minor := ["Text to HTML ratio is low (less than 10%)", "Missing Open Graph tags",
              "Missing Twitter Card tags", "No internal links found",
              "No media queries detected for responsive design", "Failed to fetch robots.txt",
              "Failed to fetch sitemap.xml", "Content may be difficult to read (score: 0.0)"] }

/-! ## Helper lemmas -/

theorem hierarchyAux_pos_iff (l : List Nat) : ∀ i last : Nat, 0 < i →
    (hierarchyAux i last l = true ↔ List.Chain (fun a b => b ≤ a + 1) last l) := by
  induction l with
  | nil =>
    intro i last _
    simp [hierarchyAux, List.Chain.nil]
  | cons x xs ih =>
    intro i last hi
    simp only [hierarchyAux]
    by_cases hx : x > last + 1
    · have : (decide (x > last + 1) && decide (i > 0)) = true := by
        simp [hx, hi]
      rw [this]
      simp only [if_true]
      constructor
      · intro h; exact absurd h (by simp)
      · intro h
        rcases List.chain_cons.mp h with ⟨hr, _⟩
        omega
    · have : (decide (x > last + 1) && decide (i > 0)) = false := by
        simp [hx]
      rw [this, if_neg (by simp)]
      rw [ih (i + 1) x (Nat.succ_pos i), List.chain_cons]
      constructor
      · intro h; exact ⟨by omega, h⟩
      · intro h; exact h.2

theorem checkHeadingHierarchy_iff_chain (levels : List Nat) :
    checkHeadingHierarchy levels = true ↔
      List.Chain' (fun a b => b ≤ a + 1) levels := by
  cases levels with
  | nil => simp [checkHeadingHierarchy, hierarchyAux, List.chain'_nil]
  | cons x xs =>
    have h0 : checkHeadingHierarchy (x :: xs) = hierarchyAux 1 x xs := by
      simp [checkHeadingHierarchy, hierarchyAux]
    rw [h0, hierarchyAux_pos_iff xs 1 x Nat.one_pos]
    exact Iff.rfl

theorem length_insertByScoreDesc {α : Type} (score : α → ℚ) (x : α) (l : List α) :
    (insertByScoreDesc score x l).length = l.length + 1 := by
  induction l with
  | nil => rfl
  | cons y ys ih =>
    simp only [insertByScoreDesc]
    split
    · simp
    · simp [ih]

theorem length_sortByScoreDesc {α : Type} (score : α → ℚ) (l : List α) :
    (sortByScoreDesc score l).length = l.length := by
  induction l with
  | nil => rfl
  | cons x xs ih => simp [sortByScoreDesc, length_insertByScoreDesc, ih]

theorem mem_of_mem_dedupKeepFirstAux :
    ∀ (l seen : List String) (x : String), x ∈ dedupKeepFirstAux seen l → x ∈ l := by
  intro l
  induction l with
  | nil => intro seen x h; simp [dedupKeepFirstAux] at h
  | cons y ys ih =>
    intro seen x h
    simp only [dedupKeepFirstAux] at h
    split at h
    · exact List.mem_cons_of_mem _ (ih _ _ h)
    · rcases List.mem_cons.mp h with rfl | h2
      · exact List.mem_cons_self _ _
      · exact List.mem_cons_of_mem _ (ih _ _ h2)

theorem mem_of_mem_dedupKeepFirst (l : List String) (x : String) :
    x ∈ dedupKeepFirst l → x ∈ l :=
  mem_of_mem_dedupKeepFirstAux l [] x

theorem overallScoreQ_eq (n : ℕ) : overallScoreQ n = 100 - min ((n : ℚ) * (5/2)) 70 := by
  have hmin : min ((n : ℚ) * (5/2)) 70 ≤ 70 := min_le_right _ _
  unfold overallScoreQ
  exact max_eq_right (by linarith)

theorem overallScoreQ_ge (n : ℕ) : 30 ≤ overallScoreQ n := by
  have hmin : min ((n : ℚ) * (5/2)) 70 ≤ 70 := min_le_right _ _
  rw [overallScoreQ_eq]
  linarith

theorem overallScoreQ_le (n : ℕ) : overallScoreQ n ≤ 100 := by
  have h0 : (0 : ℚ) ≤ (n : ℚ) * (5/2) := by positivity
  have hmin : (0 : ℚ) ≤ min ((n : ℚ) * (5/2)) 70 := le_min h0 (by norm_num)
  rw [overallScoreQ_eq]
  linarith

theorem auditCompute_ok_inv (url : String) (page : Page) (resolve : Resolver)
    (linkStatus : String → Option Nat) (robotsResp sitemapResp : Option (Nat × String))
    (out : AuditOutput)
    (h : auditCompute url page resolve linkStatus robotsResp sitemapResp = Except.ok out) :
    out.overallScore = overallScoreQ out.issues.length := by
  cases h1 : analyzeImages page.imgEls url resolve with
  | error e =>
    simp only [auditCompute, h1, Bind.bind, Except.bind] at h
    exact Except.noConfusion h
  | ok ires =>
    cases h2 : analyzeInternalLinks page.anchors url resolve with
    | error e =>
      simp only [auditCompute, h1, h2, Bind.bind, Except.bind] at h
      exact Except.noConfusion h
    | ok iires =>
      cases h3 : checkBrokenLinks page.anchors url resolve linkStatus with
      | error e =>
        simp only [auditCompute, h1, h2, h3, Bind.bind, Except.bind] at h
        exact Except.noConfusion h
      | ok bres =>
        simp only [auditCompute, h1, h2, h3, Bind.bind, Except.bind, pure, Except.pure,
          Except.ok.injEq] at h
        rw [← h]

/-! ## Claim theorems -/

set_option maxHeartbeats 4000000 in
theorem cAudit_run :
    auditCompute "https://example.com/page" cPage okResolver noHead none none = Except.ok cOut := by
  with_unfolding_all decide

/-- C9: the overall score the `POST` handler computes equals
`max(0, 100 - min(issueCount * 2.5, 70))` (the `max` never binds, since the
deduction is capped at 70), and therefore always lies between 30 and 100
inclusive — it can never drop below 30 no matter how many issues are
found. -/
theorem c9_deduction_score_formula_and_bounds :
    (∀ n : ℕ, overallScoreQ n = 100 - min ((n : ℚ) * (5/2)) 70
      ∧ 30 ≤ overallScoreQ n ∧ overallScoreQ n ≤ 100)
    ∧ ∀ (url : String) (page : Page) (resolve : Resolver)
        (linkStatus : String → Option Nat) (robotsResp sitemapResp : Option (Nat × String))
        (out : AuditOutput),
        auditCompute url page resolve linkStatus robotsResp sitemapResp = Except.ok out →
        out.overallScore = overallScoreQ out.issues.length :=
  ⟨fun n => ⟨overallScoreQ_eq n, overallScoreQ_ge n, overallScoreQ_le n⟩,
   fun url page resolve linkStatus rb sm out h =>
     auditCompute_ok_inv url page resolve linkStatus rb sm out h⟩

set_option maxHeartbeats 4000000 in
/-- Witness for C9: the bounds at 13 issues, and the formula on the
concrete audit of `cPage` (13 issues, score 67.5). -/
theorem c9_deduction_score_formula_and_bounds_witness :
    (overallScoreQ 13 = 100 - min ((13 : ℚ) * (5/2)) 70 ∧ 30 ≤ overallScoreQ 13)
    ∧ auditCompute "https://example.com/page" cPage okResolver noHead none none = Except.ok cOut
    ∧ cOut.overallScore = overallScoreQ cOut.issues.length :=
  ⟨⟨(c9_deduction_score_formula_and_bounds.1 13).1,
    (c9_deduction_score_formula_and_bounds.1 13).2.1⟩,
   cAudit_run,
   c9_deduction_score_formula_and_bounds.2 "https://example.com/page" cPage okResolver noHead
     none none cOut cAudit_run⟩

set_option maxHeartbeats 4000000 in
/-- C1 is false of the code: the audit of the minimal page `cPage` yields 13
issues and overall score 67.5, which is not an integer, while the claimed
severity-weighted formula `round((p*100 + w*50)/(p+w+e))` only takes integer
values — no severity counts with positive total realise this score. -/
theorem c1_counterexample_score_not_weighted :
    auditCompute "https://example.com/page" cPage okResolver noHead none none = Except.ok cOut
    ∧ cOut.issues.length = 13 ∧ cOut.overallScore = 135/2
    ∧ ¬ isSpecScore (135/2) := by
  refine ⟨cAudit_run, by with_unfolding_all decide, by with_unfolding_all decide, ?_⟩
  rintro ⟨p, w, e, _, heq⟩
  have hden : (specScore p w e).den = 1 := Rat.den_intCast _
  rw [heq] at hden
  have h2 : ((135 : ℚ)/2).den = 2 := by with_unfolding_all decide
  rw [h2] at hden
  exact absurd hden (by norm_num)

/-- C1 (amended): for every audit, the overall score returned equals
`max(0, 100 - min(issueCount * 2.5, 70))` — issues carry no severities, so
no passed/warning/error weighting exists — and the score lies between 0 and
100 inclusive. -/
theorem c1_amended_deduction_score :
    ∀ (url : String) (page : Page) (resolve : Resolver)
      (linkStatus : String → Option Nat) (robotsResp sitemapResp : Option (Nat × String))
      (out : AuditOutput),
      auditCompute url page resolve linkStatus robotsResp sitemapResp = Except.ok out →
      out.overallScore = max 0 (100 - min ((out.issues.length : ℚ) * (5/2)) 70)
      ∧ 0 ≤ out.overallScore ∧ out.overallScore ≤ 100 := by
  intro url page resolve ls rb sm out h
  have h1 := auditCompute_ok_inv url page resolve ls rb sm out h
  refine ⟨h1, ?_, ?_⟩
  · rw [h1]
    linarith [overallScoreQ_ge out.issues.length]
  · rw [h1]
    exact overallScoreQ_le _

set_option maxHeartbeats 4000000 in
/-- Witness for the amended C1, at the concrete audit of `cPage`. -/
theorem c1_amended_deduction_score_witness :
    auditCompute "https://example.com/page" cPage okResolver noHead none none = Except.ok cOut
    ∧ (cOut.overallScore = max 0 (100 - min ((cOut.issues.length : ℚ) * (5/2)) 70)
       ∧ 0 ≤ cOut.overallScore ∧ cOut.overallScore ≤ 100) :=
  ⟨cAudit_run,
   c1_amended_deduction_score "https://example.com/page" cPage okResolver noHead none none cOut
     cAudit_run⟩

/-- C2 is false of the code: a check whose dimension is fully satisfactory
emits nothing at all — `analyzeHttps` on an HTTPS URL and
`analyzeHeadingStructure` on a page with exactly one properly nested h1 both
return empty issue lists; no good-severity issue exists anywhere (issues are
bare problem strings). -/
theorem c2_counterexample_silent_when_satisfactory :
    (analyzeHttps "https://example.com").issues = []
    ∧ (analyzeHeadingStructure [(1, "Welcome")]).issues = [] := by
  with_unfolding_all decide

/-- C2 (amended): checks emit issues only for detected problems; a
satisfactory dimension produces no issue — the HTTPS check is silent on
every HTTPS URL, and the headings check is silent on every page with
exactly one h1 and a properly nested heading sequence. -/
theorem c2_amended_checks_emit_only_problems :
    (∀ url : String, url.startsWith "https://" = true → (analyzeHttps url).issues = [])
    ∧ (∀ seq : HeadingSeq,
        (seq.filter (fun h => h.1 = 1)).length = 1 →
        checkHeadingHierarchy (seq.map (·.1)) = true →
        (analyzeHeadingStructure seq).issues = []) := by
  constructor
  · intro url h
    simp [analyzeHttps, h]
  · intro seq h1 h2
    simp [analyzeHeadingStructure, h1, h2]

/-- Witness for the amended C2, at an HTTPS URL and a single-h1 page. -/
theorem c2_amended_checks_emit_only_problems_witness :
    ("https://example.com".startsWith "https://" = true
      ∧ (analyzeHttps "https://example.com").issues = [])
    ∧ (([((1 : Nat), "Welcome")] : HeadingSeq).filter (fun h => h.1 = 1)).length = 1
    ∧ checkHeadingHierarchy (([((1 : Nat), "Welcome")] : HeadingSeq).map (·.1)) = true
    ∧ (analyzeHeadingStructure [((1 : Nat), "Welcome")]).issues = [] :=
  ⟨⟨by with_unfolding_all decide,
    c2_amended_checks_emit_only_problems.1 "https://example.com" (by with_unfolding_all decide)⟩,
   by with_unfolding_all decide, by with_unfolding_all decide,
   c2_amended_checks_emit_only_problems.2 [((1 : Nat), "Welcome")]
     (by with_unfolding_all decide) (by with_unfolding_all decide)⟩

/-- C4 is false of the code: on a page whose only heading is an h3 (an h3
present without any h2), no hierarchy-skip warning is emitted — the check
compares each heading only with its predecessor and exempts the first
heading — and the sole issue is the missing-h1 error. -/
theorem c4_counterexample_initial_h3_unflagged :
    (analyzeHeadingStructure [(3, "Section")]).issues = ["No H1 heading found"]
    ∧ "Heading structure is not properly nested"
        ∉ (analyzeHeadingStructure [(3, "Section")]).issues := by
  with_unfolding_all decide

/-- C4 (amended): the headings check emits "No H1 heading found" exactly
when the h1 count is 0, "Multiple H1 headings found" (without listing the
texts in the issue) exactly when the count exceeds 1, no count issue when it
is exactly 1, and the not-properly-nested warning exactly when some heading
after the first exceeds its predecessor's level by more than one (so an
initial h3 without h2 is not flagged). -/
theorem c4_amended_heading_issues_characterised :
    ∀ seq : HeadingSeq,
      ("No H1 heading found" ∈ (analyzeHeadingStructure seq).issues
        ↔ (seq.filter (fun h => h.1 = 1)).length = 0)
      ∧ ("Multiple H1 headings found" ∈ (analyzeHeadingStructure seq).issues
        ↔ (seq.filter (fun h => h.1 = 1)).length > 1)
      ∧ ("Heading structure is not properly nested" ∈ (analyzeHeadingStructure seq).issues
        ↔ ¬ List.Chain' (fun a b => b ≤ a + 1) (seq.map (·.1)))
      ∧ ((seq.filter (fun h => h.1 = 1)).length = 1 →
          List.Chain' (fun a b => b ≤ a + 1) (seq.map (·.1)) →
          (analyzeHeadingStructure seq).issues = []) := by
  intro seq
  have hchain := checkHeadingHierarchy_iff_chain (seq.map (·.1))
  have hne1 : ("No H1 heading found" : String) ≠ "Multiple H1 headings found" := by
    with_unfolding_all decide
  have hne2 : ("No H1 heading found" : String) ≠ "Heading structure is not properly nested" := by
    with_unfolding_all decide
  have hne3 : ("Multiple H1 headings found" : String) ≠ "Heading structure is not properly nested" := by
    with_unfolding_all decide
  cases hb : checkHeadingHierarchy (seq.map (·.1)) with
  | false =>
    have hnc : ¬ List.Chain' (fun a b => b ≤ a + 1) (seq.map (·.1)) := by
      intro hc
      rw [hchain.mpr hc] at hb
      exact Bool.noConfusion hb
    rcases hn : (seq.filter (fun h => h.1 = 1)).length with _ | n
    · simp [analyzeHeadingStructure, hn, hb, hnc, hne1, hne2, hne3]
    · rcases n with _ | m
      · simp [analyzeHeadingStructure, hn, hb, hnc, hne1, hne2, hne3]
      · simp [analyzeHeadingStructure, hn, hb, hnc, hne1, hne2, hne3]
  | true =>
    have hc := hchain.mp hb
    rcases hn : (seq.filter (fun h => h.1 = 1)).length with _ | n
    · simp [analyzeHeadingStructure, hn, hb, hc, hne1, hne2, hne3]
    · rcases n with _ | m
      · simp [analyzeHeadingStructure, hn, hb, hc, hne1, hne2, hne3]
      · simp [analyzeHeadingStructure, hn, hb, hc, hne1, hne2, hne3]

/-- Witness for the amended C4, on the sequence h1, h2 (one h1, properly
nested). -/
theorem c4_amended_heading_issues_characterised_witness :
    (([((1 : Nat), "Title"), (2, "Sub")] : HeadingSeq).filter (fun h => h.1 = 1)).length = 1
    ∧ List.Chain' (fun a b => b ≤ a + 1)
        (([((1 : Nat), "Title"), (2, "Sub")] : HeadingSeq).map (·.1))
    ∧ (analyzeHeadingStructure [((1 : Nat), "Title"), (2, "Sub")]).issues = [] :=
  ⟨by with_unfolding_all decide,
   by simp [List.chain'_cons, List.chain'_singleton],
   (c4_amended_heading_issues_characterised [((1 : Nat), "Title"), (2, "Sub")]).2.2.2
     (by with_unfolding_all decide)
     (by simp [List.chain'_cons, List.chain'_singleton])⟩

/-- C7 is false of the code: when the canonical equals the page URL the
check emits no issue at all (there is no good classification), and when it
differs the "points to a different page" warning is emitted unconditionally
— `analyzeCanonical` receives no redirect chain, so membership of the
canonical in the redirect chain cannot suppress the warning. -/
theorem c7_counterexample_no_good_and_no_chain :
    (analyzeCanonical ["https://example.com/page"] 0 0 "https://example.com/page").issues = []
    ∧ (analyzeCanonical ["https://example.com/old"] 0 0 "https://example.com/new").issues
        = ["Canonical URL points to a different page"] := by
  with_unfolding_all decide

/-- C7 (amended): the canonical check warns "No canonical URL specified"
exactly when the (first) canonical href is empty, warns "Canonical URL
points to a different page" exactly when a canonical is present and differs
from the page URL — regardless of any redirect chain, which the check never
consults — and emits no issue when the canonical equals the URL (and is
absolute, unique, with no pagination links present). -/
theorem c7_amended_canonical_issues_characterised :
    ∀ (hrefs : List String) (prev next : Nat) (url : String),
      ("No canonical URL specified" ∈ (analyzeCanonical hrefs prev next url).issues
        ↔ hrefs.headD "" = "")
      ∧ ("Canonical URL points to a different page"
            ∈ (analyzeCanonical hrefs prev next url).issues
        ↔ (hrefs.headD "" ≠ "" ∧ hrefs.headD "" ≠ url))
      ∧ (hrefs.headD "" = url → hrefs.headD "" ≠ "" →
          (hrefs.headD "").startsWith "/" = false → hrefs.length ≤ 1 →
          prev = 0 → next = 0 →
          (analyzeCanonical hrefs prev next url).issues = []) := by
  intro hrefs prev next url
  have d1 : ("No canonical URL specified" : String)
      ≠ "Canonical URL points to a different page" := by with_unfolding_all decide
  have d2 : ("No canonical URL specified" : String)
      ≠ "Canonical URL is relative, should be absolute" := by with_unfolding_all decide
  have d3 : ("No canonical URL specified" : String)
      ≠ "Multiple canonical tags found" := by with_unfolding_all decide
  have d4 : ("No canonical URL specified" : String)
      ≠ "Pagination links present but no canonical tag" := by with_unfolding_all decide
  have d5 : ("Canonical URL points to a different page" : String)
      ≠ "Canonical URL is relative, should be absolute" := by with_unfolding_all decide
  have d6 : ("Canonical URL points to a different page" : String)
      ≠ "Multiple canonical tags found" := by with_unfolding_all decide
  have d7 : ("Canonical URL points to a different page" : String)
      ≠ "Pagination links present but no canonical tag" := by with_unfolding_all decide
  have hsw : ("" : String).startsWith "/" = false := by with_unfolding_all decide
  simp only [List.headD_eq_head?_getD]
  refine ⟨?_, ?_, ?_⟩
  · by_cases hc : hrefs.head?.getD "" = ""
    · simp only [analyzeCanonical, List.headD_eq_head?_getD, hc, hsw]
      simp [d2, d3, d4]
    · by_cases hs : hrefs.head?.getD "" = url
      · simp only [analyzeCanonical, List.headD_eq_head?_getD, hc, hs]
        simp [hc, d2, d3, d4]
      · simp only [analyzeCanonical, List.headD_eq_head?_getD, hc, hs]
        simp [hc, d1, d2, d3, d4]
  · by_cases hc : hrefs.head?.getD "" = ""
    · simp only [analyzeCanonical, List.headD_eq_head?_getD, hc, hsw]
      simp [hc, d1.symm, d5, d6, d7]
    · by_cases hs : hrefs.head?.getD "" = url
      · simp only [analyzeCanonical, List.headD_eq_head?_getD, hc, hs]
        simp [hc, hs, d5, d6, d7]
      · simp only [analyzeCanonical, List.headD_eq_head?_getD, hc, hs]
        simp [hc, hs, d5, d6, d7]
  · intro hs hc hrel hlen hprev hnext
    have hmul : ¬ hrefs.length > 1 := by omega
    simp only [analyzeCanonical, List.headD_eq_head?_getD] at hs hc hrel ⊢
    simp [hs, hc, hrel, hmul, hprev, hnext]
    exact ⟨hs ▸ hc, hs ▸ hrel⟩

/-- Witness for the amended C7, at a self-referencing absolute canonical. -/
theorem c7_amended_canonical_issues_characterised_witness :
    (("No canonical URL specified"
        ∈ (analyzeCanonical ["https://example.com/page"] 0 0 "https://example.com/page").issues
      ↔ (["https://example.com/page"].headD "" : String) = ""))
    ∧ (analyzeCanonical ["https://example.com/page"] 0 0 "https://example.com/page").issues = [] :=
  ⟨(c7_amended_canonical_issues_characterised ["https://example.com/page"] 0 0
      "https://example.com/page").1,
   (c7_amended_canonical_issues_characterised ["https://example.com/page"] 0 0
      "https://example.com/page").2.2
     (by with_unfolding_all decide) (by with_unfolding_all decide)
     (by with_unfolding_all decide) (by with_unfolding_all decide) rfl rfl⟩

/-- C6 is false of the code in its listing part: for a single 404 link the
broken-link issue is the count string "1 broken links found", which does not
mention the affected href at all (the affected links appear only in the
separate `brokenLinks` field). -/
theorem c6_counterexample_issue_lists_count_not_links :
    checkBrokenLinks [cBrokenAnchor] "https://example.com/page" okResolver (fun _ => some 404)
      = Except.ok
          { checkedLinks := 1,
            brokenLinks := [{ text := "a", url := "http://example.com/x", status := some 404 }],
            issues := ["1 broken links found"] }
    ∧ jsIncludes "1 broken links found" "http://example.com/x" = false := by
  with_unfolding_all decide

/-- C6 (amended): the broken-link check status-checks at most 10 links
(collected after skipping anchor, `javascript:`, `mailto:` and `tel:`
hrefs), a checked link is broken exactly when its response status is at
least 400 or the request errors, and the emitted issue reports only the
number of broken links — the affected links themselves are returned in the
`brokenLinks` field. -/
theorem c6_amended_broken_links_characterised :
    ∀ (anchors : List AEl) (baseUrl : String) (resolve : Resolver)
      (linkStatus : String → Option Nat) (h : String) (links : List BLink)
      (r : BrokenLinksResult),
      hostnameOf baseUrl = some h →
      collectCheckableLinks anchors baseUrl resolve = Except.ok links →
      checkBrokenLinks anchors baseUrl resolve linkStatus = Except.ok r →
      r.checkedLinks = min 10 links.length
      ∧ r.checkedLinks ≤ 10
      ∧ r.brokenLinks = (links.take 10).filterMap (classifyLink linkStatus)
      ∧ (∀ l : BLink, (∃ b, classifyLink linkStatus l = some b)
          ↔ (linkStatus l.url = none ∨ ∃ s, linkStatus l.url = some s ∧ 400 ≤ s))
      ∧ r.issues = (if r.brokenLinks.length > 0
          then [toString r.brokenLinks.length ++ " broken links found"] else []) := by
  intro anchors baseUrl resolve linkStatus h links r hh hcol hrun
  simp only [checkBrokenLinks, hh, hcol, Bind.bind, Except.bind, pure, Except.pure,
    Except.ok.injEq] at hrun
  subst hrun
  refine ⟨List.length_take _ _, ?_, rfl, ?_, ?_⟩
  · simp [List.length_take]
  · intro l
    unfold classifyLink
    cases hst : linkStatus l.url with
    | none => simp
    | some s =>
      by_cases h4 : s ≥ 400
      · simp [h4, ge_iff_le] at h4 ⊢
      · simp [h4]
  · rfl

set_option maxRecDepth 4096 in
set_option maxHeartbeats 1600000 in
/-- Witness for the amended C6, at a single anchor answering 404. -/
theorem c6_amended_broken_links_characterised_witness :
    hostnameOf "https://example.com/page" = some "example.com"
    ∧ collectCheckableLinks [cBrokenAnchor] "https://example.com/page" okResolver
        = Except.ok [{ text := "a", url := "http://example.com/x" }]
    ∧ ({ checkedLinks := 1,
         brokenLinks := [{ text := "a", url := "http://example.com/x", status := some 404 }],
         issues := ["1 broken links found"] } : BrokenLinksResult).checkedLinks
        = min 10 ([{ text := "a", url := "http://example.com/x" }] : List BLink).length :=
  ⟨by with_unfolding_all decide, by with_unfolding_all decide,
   (c6_amended_broken_links_characterised [cBrokenAnchor] "https://example.com/page" okResolver
      (fun _ => some 404) "example.com" [{ text := "a", url := "http://example.com/x" }]
      { checkedLinks := 1,
        brokenLinks := [{ text := "a", url := "http://example.com/x", status := some 404 }],
        issues := ["1 broken links found"] }
      (by with_unfolding_all decide) (by with_unfolding_all decide)
      (by with_unfolding_all decide)).1⟩

set_option maxRecDepth 4096 in
set_option maxHeartbeats 1600000 in
/-- C5 is false of the code: keyword candidates are not body tokens but
come from the meta keywords, title and h1 words, and the ranked list is
capped at 10, not 20 — with eleven qualifying words the program returns 10
keywords while the spec-described extraction returns all 11. -/
theorem c5_counterexample_top10_not_top20 :
    (analyzeKeywords "" "" cKwTitle "" cKwBody "https://example.com/page").sortedKeywords.length
      = 10
    ∧ (extractKeywords_spec cKwBody).length = 11 := by
  with_unfolding_all decide

/-- C5 (amended): the keyword analysis ranks at most 10 keywords
(`min(candidates, 10)`), and every candidate keyword originates from the
comma-split lowercased meta keywords, or from a title or h1 whitespace
token longer than three characters — not from a stop-word-filtered body
tokenisation. -/
theorem c5_amended_keyword_candidates :
    ∀ (mk md title h1t body url : String),
      (analyzeKeywords mk md title h1t body url).sortedKeywords.length
        = min 10 (analyzeKeywords mk md title h1t body url).keywordAnalysis.length
      ∧ ∀ a ∈ (analyzeKeywords mk md title h1t body url).keywordAnalysis,
          (∃ k ∈ mk.splitOn ",", a.keyword = k.trim.toLower)
          ∨ (a.keyword ∈ jsSplitWs title.toLower ∧ a.keyword.length > 3)
          ∨ (a.keyword ∈ jsSplitWs h1t.toLower ∧ a.keyword.length > 3) := by
  intro mk md title h1t body url
  constructor
  · simp only [analyzeKeywords]
    rw [List.length_take, length_sortByScoreDesc]
  · intro a ha
    simp only [analyzeKeywords] at ha
    rcases List.mem_map.mp ha with ⟨kw, hkw, rfl⟩
    have hkw2 := mem_of_mem_dedupKeepFirst _ _ hkw
    rcases List.mem_append.mp hkw2 with h12 | h3
    · rcases List.mem_append.mp h12 with h1 | h2
      · by_cases hmk : mk ≠ ""
        · rw [if_pos hmk] at h1
          rcases List.mem_map.mp h1 with ⟨k, hk, rfl⟩
          exact Or.inl ⟨k, hk, rfl⟩
        · rw [if_neg hmk] at h1
          exact absurd h1 (List.not_mem_nil _)
      · rcases List.mem_filter.mp h2 with ⟨hmem, hlen⟩
        exact Or.inr (Or.inl ⟨hmem, by simpa using hlen⟩)
    · rcases List.mem_filter.mp h3 with ⟨hmem, hlen⟩
      exact Or.inr (Or.inr ⟨hmem, by simpa using hlen⟩)

set_option maxRecDepth 4096 in
set_option maxHeartbeats 1600000 in
/-- Witness for the amended C5: the "alpha" entry of the concrete keyword
analysis originates from the title. -/
theorem c5_amended_keyword_candidates_witness :
    ({ keyword := "alpha", inTitle := true, inH1 := false, inUrl := false,
       inMetaDescription := false, occurrences := 1, density := 1/11 } : KwEntry)
      ∈ (analyzeKeywords "" "" cKwTitle "" cKwBody "https://example.com/page").keywordAnalysis
    ∧ ((∃ k ∈ ("" : String).splitOn ",",
          ("alpha" : String) = k.trim.toLower)
        ∨ (("alpha" : String) ∈ jsSplitWs cKwTitle.toLower ∧ ("alpha" : String).length > 3)
        ∨ (("alpha" : String) ∈ jsSplitWs ("" : String).toLower
            ∧ ("alpha" : String).length > 3)) :=
  ⟨by with_unfolding_all decide,
   (c5_amended_keyword_candidates "" "" cKwTitle "" cKwBody "https://example.com/page").2
     { keyword := "alpha", inTitle := true, inH1 := false, inUrl := false,
       inMetaDescription := false, occurrences := 1, density := 1/11 }
     (by with_unfolding_all decide)⟩

set_option maxHeartbeats 1600000 in
/-- C3 is false of the code: a single throwing check (here the image-src
resolution of an unresolvable `src="foo://["`) aborts the whole audit — the
handler's one `try`/`catch` turns it into a 500 error response, and the
caller receives no `AuditResult` at all. -/
theorem c3_counterexample_check_throw_aborts_audit :
    auditCompute "https://example.com/page" cPageThrow throwingResolver noHead none none
      = Except.error "Invalid URL: foo://["
    ∧ postModel (some "https://example.com/page") (fun _ => true) (Except.ok cPageThrow)
        throwingResolver noHead none none
      = PostResponse.serverError "Failed to perform SEO audit" "Invalid URL: foo://["
    ∧ statusOfResponse (postModel (some "https://example.com/page") (fun _ => true)
        (Except.ok cPageThrow) throwingResolver noHead none none) = 500 := by
  refine ⟨by with_unfolding_all decide, by with_unfolding_all decide, ?_⟩
  with_unfolding_all decide

/-- C3 (amended): when any check throws, the `POST` handler's catch-all
returns a 500 error response carrying the exception message, and never an
audit result — a complete result is produced only when every check
completes. -/
theorem c3_amended_check_throw_yields_500 :
    ∀ (url : String) (page : Page) (urlValid : String → Bool) (resolve : Resolver)
      (linkStatus : String → Option Nat) (robotsResp sitemapResp : Option (Nat × String))
      (e : String),
      url ≠ "" → urlValid url = true →
      auditCompute url page resolve linkStatus robotsResp sitemapResp = Except.error e →
      postModel (some url) urlValid (Except.ok page) resolve linkStatus robotsResp sitemapResp
          = PostResponse.serverError "Failed to perform SEO audit" e
      ∧ ∀ out : AuditOutput,
          postModel (some url) urlValid (Except.ok page) resolve linkStatus robotsResp
            sitemapResp ≠ PostResponse.ok out := by
  intro url page v resolve ls rb sm e hne hv herr
  have hmain : postModel (some url) v (Except.ok page) resolve ls rb sm
      = PostResponse.serverError "Failed to perform SEO audit" e := by
    simp [postModel, hne, hv, herr]
  refine ⟨hmain, fun out h => ?_⟩
  rw [hmain] at h
  exact PostResponse.noConfusion h

set_option maxHeartbeats 1600000 in
/-- Witness for the amended C3, at the page with the unresolvable image. -/
theorem c3_amended_check_throw_yields_500_witness :
    ("https://example.com/page" : String) ≠ ""
    ∧ auditCompute "https://example.com/page" cPageThrow throwingResolver noHead none none
        = Except.error "Invalid URL: foo://["
    ∧ postModel (some "https://example.com/page") (fun _ => true) (Except.ok cPageThrow)
        throwingResolver noHead none none
        = PostResponse.serverError "Failed to perform SEO audit" "Invalid URL: foo://[" :=
  ⟨by with_unfolding_all decide, by with_unfolding_all decide,
   (c3_amended_check_throw_yields_500 "https://example.com/page" cPageThrow (fun _ => true)
      throwingResolver noHead none none "Invalid URL: foo://["
      (by with_unfolding_all decide) rfl (by with_unfolding_all decide)).1⟩

/-- C8: the audit computation is a deterministic function of its inputs
(the parsed page snapshot and the network oracles): two runs on equal
inputs produce equal results — in particular identical issue lists, overall
score and severity triage; the model contains no timestamp, the only
time-dependent field of the route's response. -/
theorem c8_audit_twice_identical :
    ∀ (url₁ url₂ : String) (page₁ page₂ : Page) (res₁ res₂ : Resolver)
      (ls₁ ls₂ : String → Option Nat) (rb₁ rb₂ sm₁ sm₂ : Option (Nat × String)),
      url₁ = url₂ → page₁ = page₂ → res₁ = res₂ → ls₁ = ls₂ → rb₁ = rb₂ → sm₁ = sm₂ →
      auditCompute url₁ page₁ res₁ ls₁ rb₁ sm₁ = auditCompute url₂ page₂ res₂ ls₂ rb₂ sm₂
      ∧ ∀ out₁ out₂ : AuditOutput,
          auditCompute url₁ page₁ res₁ ls₁ rb₁ sm₁ = Except.ok out₁ →
          auditCompute url₂ page₂ res₂ ls₂ rb₂ sm₂ = Except.ok out₂ →
          out₁.issues = out₂.issues ∧ out₁.overallScore = out₂.overallScore
          ∧ out₁.critical = out₂.critical ∧ out₁.major = out₂.major
          ∧ out₁.minor = out₂.minor := by
  intro url₁ url₂ page₁ page₂ res₁ res₂ ls₁ ls₂ rb₁ rb₂ sm₁ sm₂ h1 h2 h3 h4 h5 h6
  subst h1; subst h2; subst h3; subst h4; subst h5; subst h6
  refine ⟨rfl, fun out₁ out₂ ha hb => ?_⟩
  obtain rfl : out₁ = out₂ := Except.ok.inj (ha.symm.trans hb)
  exact ⟨rfl, rfl, rfl, rfl, rfl⟩

/-- Witness for C8, at the concrete audit of `cPage` run twice. -/
theorem c8_audit_twice_identical_witness :
    auditCompute "https://example.com/page" cPage okResolver noHead none none
      = auditCompute "https://example.com/page" cPage okResolver noHead none none
    ∧ cOut.issues = cOut.issues ∧ cOut.overallScore = cOut.overallScore :=
  ⟨(c8_audit_twice_identical "https://example.com/page" "https://example.com/page" cPage cPage
      okResolver okResolver noHead noHead none none none none
      rfl rfl rfl rfl rfl rfl).1,
   ((c8_audit_twice_identical "https://example.com/page" "https://example.com/page" cPage cPage
      okResolver okResolver noHead noHead none none none none
      rfl rfl rfl rfl rfl rfl).2 cOut cOut cAudit_run cAudit_run).1,
   ((c8_audit_twice_identical "https://example.com/page" "https://example.com/page" cPage cPage
      okResolver okResolver noHead noHead none none none none
      rfl rfl rfl rfl rfl rfl).2 cOut cOut cAudit_run cAudit_run).2.1⟩

/-- C10: a request whose body lacks a `url` field (or has an empty one), or
whose `url` fails URL parsing, is answered with HTTP 400 and an error
message; the response is independent of the fetch and analysis oracles, so
no outbound fetch and no analysis is performed. -/
theorem c10_invalid_request_400_no_fetch :
    ∀ (body : Option String) (urlValid : String → Bool)
      (f₁ f₂ : Except String Page) (r₁ r₂ : Resolver) (l₁ l₂ : String → Option Nat)
      (rb₁ rb₂ sm₁ sm₂ : Option (Nat × String)),
      (body = none ∨ body = some "" ∨ ∃ u, body = some u ∧ urlValid u = false) →
      statusOfResponse (postModel body urlValid f₁ r₁ l₁ rb₁ sm₁) = 400
      ∧ (∃ msg, postModel body urlValid f₁ r₁ l₁ rb₁ sm₁ = PostResponse.badRequest msg)
      ∧ postModel body urlValid f₁ r₁ l₁ rb₁ sm₁ = postModel body urlValid f₂ r₂ l₂ rb₂ sm₂ := by
  intro body v f₁ f₂ r₁ r₂ l₁ l₂ rb₁ rb₂ sm₁ sm₂ hbad
  rcases hbad with rfl | rfl | ⟨u, rfl, hv⟩
  · exact ⟨rfl, ⟨"URL is required", rfl⟩, rfl⟩
  · refine ⟨?_, ⟨"URL is required", ?_⟩, ?_⟩ <;> simp [postModel, statusOfResponse]
  · by_cases hu : u = ""
    · subst hu
      refine ⟨?_, ⟨"URL is required", ?_⟩, ?_⟩ <;> simp [postModel, statusOfResponse]
    · refine ⟨?_, ⟨"Invalid URL format", ?_⟩, ?_⟩ <;>
        simp [postModel, statusOfResponse, hu, hv]

/-- Witness for C10, at a body whose `url` fails parsing. -/
theorem c10_invalid_request_400_no_fetch_witness :
    statusOfResponse (postModel (some "notaurl") (fun _ => false) (Except.ok cPage) okResolver
      noHead none none) = 400
    ∧ postModel (some "notaurl") (fun _ => false) (Except.ok cPage) okResolver noHead none none
        = postModel (some "notaurl") (fun _ => false) (Except.error "network down")
            throwingResolver (fun _ => some 200) (some (200, "ok")) (some (200, "ok")) :=
  ⟨(c10_invalid_request_400_no_fetch (some "notaurl") (fun _ => false) (Except.ok cPage)
      (Except.error "network down") okResolver throwingResolver noHead (fun _ => some 200)
      none (some (200, "ok")) none (some (200, "ok"))
      (Or.inr (Or.inr ⟨"notaurl", rfl, rfl⟩))).1,
   (c10_invalid_request_400_no_fetch (some "notaurl") (fun _ => false) (Except.ok cPage)
      (Except.error "network down") okResolver throwingResolver noHead (fun _ => some 200)
      none (some (200, "ok")) none (some (200, "ok"))
      (Or.inr (Or.inr ⟨"notaurl", rfl, rfl⟩))).2.2⟩
